import Mathlib

/-!
# volShapeMetrics: voxel classification and distance statistics

A shallow embedding of `src/volumetric/volShapeMetrics.cpp` (DGtalTools).

* `int` counters are integers reduced to the signed 32-bit range after every
  increment (`wrap32`), `unsigned int` counters are naturals modulo `2^32`.
* `Image3D` is `ImageContainerBySTLVector<Z3i::Domain, int>`: a box domain and
  the value read at each point.
* Values of type `double` that are compared but never rounded (the distances)
  are rationals; the printed ratios are rationals with `none` standing for a
  division by zero.
* The DGtal collaborators the program calls but does not define (iteration
  order of a digital set, the distance transformation) are fields of
  `DGtalEnv`.
-/

namespace VolShapeMetrics

/-! ## Data model -/

/-- `Z3i::Point`: three integer coordinates. -/
structure Point where
  x : Int
  y : Int
  z : Int
deriving DecidableEq, Repr

/-- `Point()` : the default constructor sets every coordinate to zero. -/
def Point.origin : Point := ⟨0, 0, 0⟩

/-- `Z3i::Domain` (`HyperRectDomain`): the box between two corner points. -/
structure Domain where
  lowerBound : Point
  upperBound : Point
deriving DecidableEq, Repr

/-- The integers `lo, lo+1, ..., hi` in increasing order (empty when `hi < lo`). -/
def intRange (lo hi : Int) : List Int :=
  (List.range (hi + 1 - lo).toNat).map (fun (i : Nat) => lo + (i : Int))

/-- `domain.begin() ... domain.end()`: the points of the box in the order of
the domain iterator, first coordinate running fastest. -/
def Domain.points (D : Domain) : List Point :=
  (intRange D.lowerBound.z D.upperBound.z).flatMap fun z =>
    (intRange D.lowerBound.y D.upperBound.y).flatMap fun y =>
      (intRange D.lowerBound.x D.upperBound.x).map fun x => (⟨x, y, z⟩ : Point)

/-- `domain.size()`: the product of the three extents. -/
def Domain.size (D : Domain) : Nat :=
  (D.upperBound.x + 1 - D.lowerBound.x).toNat *
    (D.upperBound.y + 1 - D.lowerBound.y).toNat *
    (D.upperBound.z + 1 - D.lowerBound.z).toNat

/-- `Image3D = ImageContainerBySTLVector<Z3i::Domain, int>`: a domain together
with the value `image(pt)` read at a point.  The container stores
`domain.size()` values and that size is a 32-bit unsigned quantity, so an image
holds fewer than `2^32` voxels.  The container defines `image(pt)` for the
points of its domain only; `val` is left arbitrary elsewhere. -/
structure Image3D where
  domain : Domain
  val : Point → Int
  size_lt : domain.size < 2 ^ 32

/-- Reduction of an integer to the range of a 32-bit signed `int`. -/
def wrap32 (n : Int) : Int := (n + 2 ^ 31) % 2 ^ 32 - 2 ^ 31

/-- `n++` on an `int`. -/
def incrInt (n : Int) : Int := wrap32 (n + 1)

/-- `n++` on an `unsigned int`. -/
def incrUInt (n : Nat) : Nat := (n + 1) % 2 ^ 32

/-! ## getVoxelsStats -/

/-- The local variables of `getVoxelsStats` that the loop updates: the eight
counters and the four output vectors. -/
structure VoxelsState where
  numBinA : Int
  numCompBinCompA : Int
  numBnotInA : Int
  numNotBinA : Int
  numTotalInA : Int
  numTotalInB : Int
  numTotalinCompA : Int
  numTotalinCompB : Int
  vectPtBinA : List Point
  vectPtCompBinCompA : List Point
  vectPtBnotInA : List Point
  vectPtnotBInA : List Point
deriving DecidableEq, Repr

/-- `v.push_back(p)` when `exportStatVoxels` holds, nothing otherwise. -/
def pushIf (exportStatVoxels : Bool) (v : List Point) (p : Point) : List Point :=
  if exportStatVoxels then v ++ [p] else v

/-- One iteration of the loop of `getVoxelsStats` (source lines 183-211). -/
def voxelStep (imageA : Image3D) (aMin aMax : Int) (imageB : Image3D) (bMin bMax : Int)
    (exportStatVoxels : Bool) (s : VoxelsState) (p : Point) : VoxelsState :=
  if imageA.val p ≤ aMax ∧ imageA.val p ≥ aMin then
    if imageB.val p ≤ bMax ∧ imageB.val p ≥ bMin then
      { s with
        numTotalInA := incrInt s.numTotalInA
        numTotalInB := incrInt s.numTotalInB
        numBinA := incrInt s.numBinA
        vectPtBinA := pushIf exportStatVoxels s.vectPtBinA p }
    else
      { s with
        numTotalInA := incrInt s.numTotalInA
        numTotalinCompB := incrInt s.numTotalinCompB
        numNotBinA := incrInt s.numNotBinA
        vectPtnotBInA := pushIf exportStatVoxels s.vectPtnotBInA p }
  else
    if imageB.val p ≤ bMax ∧ imageB.val p ≥ bMin then
      { s with
        numTotalinCompA := incrInt s.numTotalinCompA
        numBnotInA := incrInt s.numBnotInA
        numTotalInB := incrInt s.numTotalInB
        vectPtBnotInA := pushIf exportStatVoxels s.vectPtBnotInA p }
    else
      { s with
        numTotalinCompA := incrInt s.numTotalinCompA
        numTotalinCompB := incrInt s.numTotalinCompB
        numCompBinCompA := incrInt s.numCompBinCompA
        vectPtCompBinCompA := pushIf exportStatVoxels s.vectPtCompBinCompA p }

/-- The state at loop entry: counters at zero, the vectors as passed in. -/
def voxelsInit (vectPtBinA vectPtCompBinCompA vectPtBnotInA vectPtnotBInA : List Point) :
    VoxelsState :=
  { numBinA := 0, numCompBinCompA := 0, numBnotInA := 0, numNotBinA := 0,
    numTotalInA := 0, numTotalInB := 0, numTotalinCompA := 0, numTotalinCompB := 0,
    vectPtBinA := vectPtBinA, vectPtCompBinCompA := vectPtCompBinCompA,
    vectPtBnotInA := vectPtBnotInA, vectPtnotBInA := vectPtnotBInA }

/-- A quotient `(double)num / den` of two `int`s, `none` when `den` is zero
(the division then yields no number). -/
def ratio (num den : Int) : Option ℚ :=
  if den = 0 then none else some ((num : ℚ) / (den : ℚ))

/-- `(2.0*precision*recall)/(precision+recall)`, `none` when an operand is
not a number or the denominator is zero. -/
def fMean (precision recallV : Option ℚ) : Option ℚ :=
  match precision, recallV with
  | some p, some r => if p + r = 0 then none else some (2 * p * r / (p + r))
  | _, _ => none

/-- The three figures printed when `precisionRecallFMean` holds (`recallV` is
the source's `recall`, a reserved word here). -/
structure Metrics where
  precision : Option ℚ
  recallV : Option ℚ
  fmean : Option ℚ
deriving DecidableEq

/-- Source lines 217-219. -/
def metricsOf (s : VoxelsState) : Metrics :=
  let precision := ratio s.numBinA (wrap32 (s.numBinA + s.numBnotInA))
  let recallV := ratio s.numBinA (wrap32 (s.numBinA + s.numNotBinA))
  { precision := precision, recallV := recallV, fmean := fMean precision recallV }

/-- What `getVoxelsStats` leaves behind: the final counters and vectors, and
the metrics when they are printed. -/
structure VoxelsResult where
  state : VoxelsState
  metrics : Option Metrics

/-- `getVoxelsStats`, the point-collecting variant (source lines 169-222). -/
def getVoxelsStats (imageA : Image3D) (aMin aMax : Int) (imageB : Image3D) (bMin bMax : Int)
    (exportStatVoxels : Bool)
    (vectPtBinA vectPtCompBinCompA vectPtBnotInA vectPtnotBInA : List Point)
    (precisionRecallFMean : Bool) : VoxelsResult :=
  let s := imageA.domain.points.foldl
    (voxelStep imageA aMin aMax imageB bMin bMax exportStatVoxels)
    (voxelsInit vectPtBinA vectPtCompBinCompA vectPtBnotInA vectPtnotBInA)
  { state := s, metrics := if precisionRecallFMean then some (metricsOf s) else none }

/-- `getVoxelsStats`, the counts-only overload (source lines 226-231). -/
def getVoxelsStatsCounts (imageA : Image3D) (aMin aMax : Int) (imageB : Image3D)
    (bMin bMax : Int) (precisionRecallFMean : Bool) : VoxelsResult :=
  getVoxelsStats imageA aMin aMax imageB bMin bMax false [] [] [] [] precisionRecallFMean

/-! ## getStatsFromDistanceMap -/

/-- `isDiff` (source lines 115-121). -/
def isDiff (imageA : Image3D) (aMin aMax : Int) (imageB : Image3D) (bMin bMax : Int)
    (pt : Point) : Bool :=
  let isRefOn := decide (imageA.val pt ≤ aMax) && decide (imageA.val pt ≥ aMin)
  let isCompOn := decide (imageB.val pt ≤ bMax) && decide (imageB.val pt ≥ bMin)
  (!isRefOn && isCompOn) || (isRefOn && !isCompOn)

/-- The DGtal collaborators of `getStatsFromDistanceMap` that the program does
not define: the order in which a `Z3i::DigitalSet` hands back the points
inserted into it, and `DistanceTransformation`, which from a domain and a point
predicate yields the distance read at each point. -/
structure DGtalEnv where
  iterationOrder : List Point → List Point
  iterationOrder_perm : ∀ l, List.Perm (iterationOrder l) l
  distanceTransformation : Domain → (Point → Bool) → Point → ℚ

/-- Modelled from the spec: `SetFromImage<Z3i::DigitalSet>::append` on a fresh
set, the external set builder. It selects the points of the image whose value
lies in the half-open interval `minVal < value ≤ maxVal`; the result lists them
in the iteration order of the set. -/
def setFromImage (env : DGtalEnv) (image : Image3D) (minVal maxVal : Int) : List Point :=
  env.iterationOrder
    (image.domain.points.filter fun p => minVal < image.val p ∧ image.val p ≤ maxVal)

/-- `functors::NotPointPredicate` over a digital set. -/
def notPointPredicate (set : List Point) (p : Point) : Bool := !(set.contains p)

/-- `Statistic<double>` as far as the program feeds it: the values added, in
order. -/
structure Statistic where
  samples : List ℚ
deriving DecidableEq

/-- `stats.addValue(v)`. -/
def Statistic.addValue (stats : Statistic) (v : ℚ) : Statistic :=
  { samples := stats.samples ++ [v] }

/-- What the loop of `getStatsFromDistanceMap` updates. `ptMax` is `none` for
a null pointer and otherwise holds the pointed-to point. -/
structure DistanceState where
  stats : Statistic
  nbAdded : Nat
  maxDist : ℚ
  ptMax : Option Point
deriving DecidableEq

/-- The assignment of the three coordinates of `*it` to `*ptMax` under the
guard `ptMax != 0`. -/
def storePoint (ptMax : Option Point) (it : Point) : Option Point :=
  match ptMax with
  | none => none
  | some _ => some ⟨it.x, it.y, it.z⟩

/-- One iteration of the loop of `getStatsFromDistanceMap` (source lines
148-162). -/
def distanceStep (imageA : Image3D) (aMin aMax : Int) (imageB : Image3D) (bMin bMax : Int)
    (statOnFalsePositiveOnly : Bool) (dtL2 : Point → ℚ) (s : DistanceState) (it : Point) :
    DistanceState :=
  if (!statOnFalsePositiveOnly) || isDiff imageA aMin aMax imageB bMin bMax it then
    let distance := dtL2 it
    let s1 : DistanceState :=
      { s with stats := s.stats.addValue distance, nbAdded := incrUInt s.nbAdded }
    if s.maxDist < distance then
      { s1 with maxDist := distance, ptMax := storePoint s.ptMax it }
    else s1
  else s

/-- The messages the program can send to `trace.error()`. -/
inductive Diagnostic where
  | noPointAdded
deriving DecidableEq, Repr

/-- What `getStatsFromDistanceMap` leaves behind: the statistic, the point
behind `ptMax`, and the messages sent to `trace.error()`. -/
structure DistanceResult where
  stats : Statistic
  ptMax : Option Point
  diagnostics : List Diagnostic
deriving DecidableEq

/-- The comparison set `set3dComp` (source lines 142-143). -/
def set3dComp (env : DGtalEnv) (imageB : Image3D) (bMin bMax : Int) : List Point :=
  setFromImage env imageB (wrap32 (bMin - 1)) bMax

/-- The distance map `dtL2` (source lines 131-139). -/
def dtL2 (env : DGtalEnv) (imageA : Image3D) (aMin aMax : Int) : Point → ℚ :=
  env.distanceTransformation imageA.domain
    (notPointPredicate (setFromImage env imageA (wrap32 (aMin - 1)) aMax))

/-- The state in which the loop of `getStatsFromDistanceMap` ends. -/
def distanceLoop (env : DGtalEnv) (stats : Statistic) (imageA : Image3D) (aMin aMax : Int)
    (imageB : Image3D) (bMin bMax : Int) (statOnFalsePositiveOnly : Bool)
    (ptMax : Option Point) : DistanceState :=
  (set3dComp env imageB bMin bMax).foldl
    (distanceStep imageA aMin aMax imageB bMin bMax statOnFalsePositiveOnly
      (dtL2 env imageA aMin aMax))
    { stats := stats, nbAdded := 0, maxDist := 0, ptMax := ptMax }

/-- `getStatsFromDistanceMap` (source lines 125-166). -/
def getStatsFromDistanceMap (env : DGtalEnv) (stats : Statistic) (imageA : Image3D)
    (aMin aMax : Int) (imageB : Image3D) (bMin bMax : Int)
    (statOnFalsePositiveOnly : Bool) (ptMax : Option Point) : DistanceResult :=
  let s := distanceLoop env stats imageA aMin aMax imageB bMin bMax statOnFalsePositiveOnly ptMax
  { stats := s.stats, ptMax := s.ptMax,
    diagnostics := if s.nbAdded = 0 then [Diagnostic.noPointAdded] else [] }

/-- The points of the comparison set whose distance the loop adds, in the
order of the visit. -/
def selectedPoints (env : DGtalEnv) (imageA : Image3D) (aMin aMax : Int) (imageB : Image3D)
    (bMin bMax : Int) (statOnFalsePositiveOnly : Bool) : List Point :=
  (set3dComp env imageB bMin bMax).filter fun p =>
    (!statOnFalsePositiveOnly) || isDiff imageA aMin aMax imageB bMin bMax p

/-! ## main -/

/-- The command-line options, with the defaults of the source. -/
structure Config where
  aMin : Int := 0
  aMax : Int := 128
  bMin : Int := 0
  bMax : Int := 128
  noDistanceComparisons : Bool := false
  distancesFromBnotInAOnly : Bool := false
  displayTFstats : Bool := false
  exportSDP : Bool := false

/-- What a run of the program produces once both images are read: the counts
(and metrics) printed by `getVoxelsStats`, the point files written, the distance
statistics when they are computed, and the messages sent to `trace.error()`. -/
structure Report where
  voxels : VoxelsResult
  exported : List (String × List Point)
  distances : Option DistanceResult
  diagnostics : List Diagnostic

/-- The calls to `getVoxelsStats` and `exportSetofPoints` in `main` (source
lines 322-340). -/
def mainVoxels (cfg : Config) (imageA imageB : Image3D) :
    VoxelsResult × List (String × List Point) :=
  if cfg.exportSDP then
    if cfg.displayTFstats then
      let r := getVoxelsStats imageA cfg.aMin cfg.aMax imageB cfg.bMin cfg.bMax true
        [] [] [] [] true
      (r, [("truePos.sdp", r.state.vectPtBinA), ("trueNeg.sdp", r.state.vectPtCompBinCompA),
           ("falsePos.sdp", r.state.vectPtBnotInA), ("falseNeg.sdp", r.state.vectPtnotBInA)])
    else
      let r := getVoxelsStats imageA cfg.aMin cfg.aMax imageB cfg.bMin cfg.bMax true
        [] [] [] [] false
      (r, [("inBinA.sdp", r.state.vectPtBinA),
           ("notinBnotinA.sdp", r.state.vectPtCompBinCompA),
           ("inBnotinA.sdp", r.state.vectPtBnotInA), ("notinBinA.sdp", r.state.vectPtnotBInA)])
  else
    (getVoxelsStatsCounts imageA cfg.aMin cfg.aMax imageB cfg.bMin cfg.bMax cfg.displayTFstats,
      [])

/-- The distance part of `main` (source lines 342-350): a fresh statistic, a
default-constructed `ptMax`, and the literal `false` as `statOnFalsePositiveOnly`. -/
def mainDistances (env : DGtalEnv) (cfg : Config) (imageA imageB : Image3D) :
    Option DistanceResult :=
  if !cfg.noDistanceComparisons then
    some (getStatsFromDistanceMap env { samples := [] } imageA cfg.aMin cfg.aMax
      imageB cfg.bMin cfg.bMax false (some Point.origin))
  else none

/-- `main` after the command line is parsed and both images are imported
(source lines 301-352). -/
def main (env : DGtalEnv) (cfg : Config) (imageA imageB : Image3D) : Report :=
  let v := mainVoxels cfg imageA imageB
  let d := mainDistances env cfg imageA imageB
  { voxels := v.1, exported := v.2, distances := d,
    diagnostics := match d with
      | some r => r.diagnostics
      | none => [] }

/-! ## Reference notions: shapes, categories and their cardinalities -/

/-- The shape of an image under an inclusive interval: `lo ≤ G(p) ≤ hi`. -/
def inShape (image : Image3D) (lo hi : Int) (p : Point) : Bool :=
  decide (lo ≤ image.val p ∧ image.val p ≤ hi)

/-- The set of points of a domain. -/
def Domain.pointSet (D : Domain) : Finset Point := D.points.toFinset

/-- The number of points of a domain that satisfy a predicate. -/
def Domain.card (D : Domain) (P : Point → Bool) : Nat :=
  (D.pointSet.filter fun p => P p = true).card

/-- The reference reading of the eight counts: each is the number of points of
the domain of image A in its set, with `inA(p) := aMin ≤ A(p) ≤ aMax` and
`inB(p) := bMin ≤ B(p) ≤ bMax`, both bounds inclusive. -/
def CountsAreCardinalities (imageA : Image3D) (aMin aMax : Int) (imageB : Image3D)
    (bMin bMax : Int) (s : VoxelsState) : Prop :=
  (s.numBinA =
      (imageA.domain.pointSet.filter fun p =>
        (aMin ≤ imageA.val p ∧ imageA.val p ≤ aMax) ∧
          (bMin ≤ imageB.val p ∧ imageB.val p ≤ bMax)).card) ∧
  (s.numCompBinCompA =
      (imageA.domain.pointSet.filter fun p =>
        ¬ (aMin ≤ imageA.val p ∧ imageA.val p ≤ aMax) ∧
          ¬ (bMin ≤ imageB.val p ∧ imageB.val p ≤ bMax)).card) ∧
  (s.numBnotInA =
      (imageA.domain.pointSet.filter fun p =>
        ¬ (aMin ≤ imageA.val p ∧ imageA.val p ≤ aMax) ∧
          (bMin ≤ imageB.val p ∧ imageB.val p ≤ bMax)).card) ∧
  (s.numNotBinA =
      (imageA.domain.pointSet.filter fun p =>
        (aMin ≤ imageA.val p ∧ imageA.val p ≤ aMax) ∧
          ¬ (bMin ≤ imageB.val p ∧ imageB.val p ≤ bMax)).card) ∧
  (s.numTotalInA =
      (imageA.domain.pointSet.filter fun p =>
        aMin ≤ imageA.val p ∧ imageA.val p ≤ aMax).card) ∧
  (s.numTotalInB =
      (imageA.domain.pointSet.filter fun p =>
        bMin ≤ imageB.val p ∧ imageB.val p ≤ bMax).card) ∧
  (s.numTotalinCompA =
      (imageA.domain.pointSet.filter fun p =>
        ¬ (aMin ≤ imageA.val p ∧ imageA.val p ≤ aMax)).card) ∧
  (s.numTotalinCompB =
      (imageA.domain.pointSet.filter fun p =>
        ¬ (bMin ≤ imageB.val p ∧ imageB.val p ≤ bMax)).card)

/-! ## The four categories -/

/-- Category `BinA`: in A and in B. -/
def catBinA (imageA : Image3D) (aMin aMax : Int) (imageB : Image3D) (bMin bMax : Int)
    (p : Point) : Bool :=
  inShape imageA aMin aMax p && inShape imageB bMin bMax p

/-- Category `NotBNotA`: neither in A nor in B. -/
def catCompBinCompA (imageA : Image3D) (aMin aMax : Int) (imageB : Image3D) (bMin bMax : Int)
    (p : Point) : Bool :=
  !inShape imageA aMin aMax p && !inShape imageB bMin bMax p

/-- Category `BNotInA`: not in A but in B. -/
def catBnotInA (imageA : Image3D) (aMin aMax : Int) (imageB : Image3D) (bMin bMax : Int)
    (p : Point) : Bool :=
  !inShape imageA aMin aMax p && inShape imageB bMin bMax p

/-- Category `NotBInA`: in A but not in B. -/
def catNotBinA (imageA : Image3D) (aMin aMax : Int) (imageB : Image3D) (bMin bMax : Int)
    (p : Point) : Bool :=
  inShape imageA aMin aMax p && !inShape imageB bMin bMax p

/-- The points of a list that fall in a category, when they are collected. -/
def collected (exportStatVoxels : Bool) (cat : Point → Bool) (l : List Point) : List Point :=
  if exportStatVoxels then l.filter cat else []

/-! ## The selection of getStatsFromDistanceMap -/

/-- The selection test of the loop (source line 149). -/
def selects (imageA : Image3D) (aMin aMax : Int) (imageB : Image3D) (bMin bMax : Int)
    (statOnFalsePositiveOnly : Bool) (p : Point) : Bool :=
  (!statOnFalsePositiveOnly) || isDiff imageA aMin aMax imageB bMin bMax p

/-- The body of the loop for a selected point. -/
def addStep (dt : Point → ℚ) (s : DistanceState) (it : Point) : DistanceState :=
  { stats := s.stats.addValue (dt it)
    nbAdded := incrUInt s.nbAdded
    maxDist := if s.maxDist < dt it then dt it else s.maxDist
    ptMax := if s.maxDist < dt it then storePoint s.ptMax it else s.ptMax }

/-! ## Concrete images and collaborators -/

/-- A box of `2048 × 1024 × 1024 = 2^31` voxels. -/
def bigBox : Domain := ⟨⟨0, 0, 0⟩, ⟨2047, 1023, 1023⟩⟩

/-- The image of value 1 at every voxel of `bigBox`. -/
def bigOnes : Image3D := ⟨bigBox, fun _ => 1, by decide⟩

/-- The image over `bigBox` of value 1 in the lower half (`z ≤ 511`) and 0 in
the upper half. -/
def bigHalf : Image3D := ⟨bigBox, fun p => if p.z ≤ 511 then 1 else 0, by decide⟩

/-- The lower half of `bigBox`. -/
def halfBox : Domain := ⟨⟨0, 0, 0⟩, ⟨2047, 1023, 511⟩⟩

/-- The upper half of `bigBox`. -/
def upperHalfBox : Domain := ⟨⟨0, 0, 512⟩, ⟨2047, 1023, 1023⟩⟩

/-- Two voxels `(0,0,0)` and `(1,0,0)`. -/
def twoBox : Domain := ⟨⟨0, 0, 0⟩, ⟨1, 0, 0⟩⟩

/-- One voxel `(0,0,0)`. -/
def oneBox : Domain := ⟨⟨0, 0, 0⟩, ⟨0, 0, 0⟩⟩

/-- Value 1 at `(0,0,0)` and value 200 at `(1,0,0)`. -/
def twoA : Image3D := ⟨twoBox, fun p => if p.x = 0 then 1 else 200, by decide⟩

/-- Value 1 at both voxels of `twoBox`. -/
def twoB : Image3D := ⟨twoBox, fun _ => 1, by decide⟩

/-- Value 200 at both voxels of `twoBox`. -/
def twoOff : Image3D := ⟨twoBox, fun _ => 200, by decide⟩

/-- Value 1 at the single voxel of `oneBox`. -/
def oneA : Image3D := ⟨oneBox, fun _ => 1, by decide⟩

/-- One voxel `(5,5,5)`. -/
def farBox : Domain := ⟨⟨5, 5, 5⟩, ⟨5, 5, 5⟩⟩

/-- Value 1 at the single voxel of `farBox`. -/
def farA : Image3D := ⟨farBox, fun _ => 1, by decide⟩

/-- A collaborator for concrete runs: a digital set hands its points back in
insertion order, and the distance read at a point is 0 where the predicate is
false and 1 where it is true.  On the one-, two- and three-voxel images of this
section this is the Euclidean distance to the reference set whenever that set is
not empty. -/
def unitEnv : DGtalEnv :=
  ⟨id, fun l => List.Perm.refl l, fun _ pred p => if pred p then 1 else 0⟩

/-- The options of a run without distance comparison. -/
def countsOnlyConfig : Config := { noDistanceComparisons := true }

/-- The options of a run with `--distancesFromBnotInAOnly`. -/
def falsePositiveConfig : Config := { distancesFromBnotInAOnly := true }

/-- An image with the values of `imageB` laid over the domain of `imageA`. -/
def Image3D.over (imageB imageA : Image3D) : Image3D :=
  ⟨imageA.domain, imageB.val, imageA.size_lt⟩

/-- The reference set `set3dRef` (source lines 131-132), from which `dtL2` is
built. -/
def set3dRef (env : DGtalEnv) (imageA : Image3D) (aMin aMax : Int) : List Point :=
  setFromImage env imageA (wrap32 (aMin - 1)) aMax

/-- A cube of `2 × 2 × 2` voxels. -/
def cubeBox : Domain := ⟨⟨0, 0, 0⟩, ⟨1, 1, 1⟩⟩

/-- Value 1 at every voxel of `cubeBox`. -/
def cubeOnes : Image3D := ⟨cubeBox, fun _ => 1, by decide⟩

/-- Value 200 at `(0,0,0)` and value 1 at `(1,0,0)`. -/
def twoC : Image3D := ⟨twoBox, fun p => if p.x = 0 then 200 else 1, by decide⟩

/-- Three voxels `(0,0,0)`, `(1,0,0)` and `(2,0,0)`. -/
def threeBox : Domain := ⟨⟨0, 0, 0⟩, ⟨2, 0, 0⟩⟩

/-- Value 1 at the middle voxel `(1,0,0)` and value 200 at the two others. -/
def threeMid : Image3D := ⟨threeBox, fun p => if p.x = 1 then 1 else 200, by decide⟩

/-- Value 1 at every voxel of `threeBox`. -/
def threeOnes : Image3D := ⟨threeBox, fun _ => 1, by decide⟩

/-! # Lemmas -/

/-! ## Arithmetic of the counters -/

theorem wrap32_succ (k : Int) : wrap32 (wrap32 k + 1) = wrap32 (k + 1) := by
  unfold wrap32; omega

theorem wrap32_add_wrap32 (a b : Int) : wrap32 (wrap32 a + wrap32 b) = wrap32 (a + b) := by
  unfold wrap32; omega

theorem wrap32_of_range (n : Int) (h1 : -2 ^ 31 ≤ n) (h2 : n < 2 ^ 31) : wrap32 n = n := by
  unfold wrap32; omega

theorem wrap32_natCast_of_lt (n : Nat) (h : n < 2 ^ 31) : wrap32 (n : Int) = n := by
  unfold wrap32; omega

theorem wrap32_zero : wrap32 0 = 0 := by
  unfold wrap32; omega

theorem iterate_incrInt (n : Nat) (k : Int) : incrInt^[n] (wrap32 k) = wrap32 (k + n) := by
  induction n generalizing k with
  | zero => simp
  | succ n ih =>
    have h1 : incrInt (wrap32 k) = wrap32 (k + 1) := wrap32_succ k
    rw [Function.iterate_succ_apply, h1, ih]
    push_cast
    congr 1
    omega

theorem iterate_incrInt_zero (n : Nat) : incrInt^[n] 0 = wrap32 n := by
  have h := iterate_incrInt n 0
  rw [wrap32_zero] at h
  simpa using h

theorem mem_intRange (lo hi v : Int) : v ∈ intRange lo hi ↔ lo ≤ v ∧ v ≤ hi := by
  unfold intRange
  simp only [List.mem_map, List.mem_range]
  constructor
  · rintro ⟨i, hi1, rfl⟩
    omega
  · rintro ⟨h1, h2⟩
    refine ⟨(v - lo).toNat, ?_, ?_⟩ <;> omega

theorem length_intRange (lo hi : Int) : (intRange lo hi).length = (hi + 1 - lo).toNat := by
  simp [intRange]

theorem nodup_intRange (lo hi : Int) : (intRange lo hi).Nodup := by
  unfold intRange
  refine List.Nodup.map ?_ (List.nodup_range _)
  intro a b h
  simpa using h

theorem Domain.mem_points (D : Domain) (p : Point) :
    p ∈ D.points ↔
      (D.lowerBound.x ≤ p.x ∧ p.x ≤ D.upperBound.x) ∧
      (D.lowerBound.y ≤ p.y ∧ p.y ≤ D.upperBound.y) ∧
      (D.lowerBound.z ≤ p.z ∧ p.z ≤ D.upperBound.z) := by
  unfold Domain.points
  simp only [List.mem_flatMap, List.mem_map, mem_intRange]
  constructor
  · rintro ⟨z, hz, y, hy, x, hx, rfl⟩
    exact ⟨hx, hy, hz⟩
  · rintro ⟨hx, hy, hz⟩
    exact ⟨p.z, hz, p.y, hy, p.x, hx, rfl⟩

theorem Domain.length_points (D : Domain) : D.points.length = D.size := by
  unfold Domain.points Domain.size
  simp only [List.length_flatMap, List.length_map, Function.comp_def, length_intRange,
    List.map_const', List.sum_replicate, smul_eq_mul]
  ring

theorem Domain.nodup_points (D : Domain) : D.points.Nodup := by
  unfold Domain.points
  rw [List.nodup_flatMap]
  refine ⟨fun z _ => ?_, ?_⟩
  · rw [List.nodup_flatMap]
    refine ⟨fun y _ => ?_, ?_⟩
    · refine List.Nodup.map ?_ (nodup_intRange _ _)
      intro a b h
      simpa using h
    · refine List.Pairwise.imp_of_mem ?_ (nodup_intRange _ _)
      intro a b _ _ hab
      simp only [Function.onFun, List.Disjoint, List.mem_map]
      rintro q ⟨x1, _, rfl⟩ ⟨x2, _, h2⟩
      simp only [Point.mk.injEq] at h2
      exact hab h2.2.1.symm
  · refine List.Pairwise.imp_of_mem ?_ (nodup_intRange _ _)
    intro a b _ _ hab
    simp only [Function.onFun, List.Disjoint, List.mem_flatMap, List.mem_map]
    rintro q ⟨y1, _, x1, _, rfl⟩ ⟨y2, _, x2, _, h2⟩
    simp only [Point.mk.injEq] at h2
    exact hab h2.2.2.symm

theorem Domain.card_eq_countP (D : Domain) (P : Point → Bool) :
    D.card P = D.points.countP P := by
  unfold Domain.card Domain.pointSet
  rw [← List.toFinset_filter, List.toFinset_card_of_nodup (D.nodup_points.filter _),
    List.countP_eq_length_filter]

theorem Domain.card_pointSet (D : Domain) : D.pointSet.card = D.size := by
  unfold Domain.pointSet
  rw [List.toFinset_card_of_nodup D.nodup_points, D.length_points]

/-! ## Closed form of the loop of getVoxelsStats -/

theorem voxelStep_eq (imageA : Image3D) (aMin aMax : Int) (imageB : Image3D) (bMin bMax : Int)
    (e : Bool) (s : VoxelsState) (p : Point) :
    voxelStep imageA aMin aMax imageB bMin bMax e s p =
      { numBinA := incrInt^[[p].countP (catBinA imageA aMin aMax imageB bMin bMax)] s.numBinA
        numCompBinCompA :=
          incrInt^[[p].countP (catCompBinCompA imageA aMin aMax imageB bMin bMax)]
            s.numCompBinCompA
        numBnotInA :=
          incrInt^[[p].countP (catBnotInA imageA aMin aMax imageB bMin bMax)] s.numBnotInA
        numNotBinA :=
          incrInt^[[p].countP (catNotBinA imageA aMin aMax imageB bMin bMax)] s.numNotBinA
        numTotalInA := incrInt^[[p].countP (inShape imageA aMin aMax)] s.numTotalInA
        numTotalInB := incrInt^[[p].countP (inShape imageB bMin bMax)] s.numTotalInB
        numTotalinCompA :=
          incrInt^[[p].countP (fun q => !inShape imageA aMin aMax q)] s.numTotalinCompA
        numTotalinCompB :=
          incrInt^[[p].countP (fun q => !inShape imageB bMin bMax q)] s.numTotalinCompB
        vectPtBinA :=
          s.vectPtBinA ++ collected e (catBinA imageA aMin aMax imageB bMin bMax) [p]
        vectPtCompBinCompA :=
          s.vectPtCompBinCompA ++
            collected e (catCompBinCompA imageA aMin aMax imageB bMin bMax) [p]
        vectPtBnotInA :=
          s.vectPtBnotInA ++ collected e (catBnotInA imageA aMin aMax imageB bMin bMax) [p]
        vectPtnotBInA :=
          s.vectPtnotBInA ++ collected e (catNotBinA imageA aMin aMax imageB bMin bMax) [p] } := by
  have hA : inShape imageA aMin aMax p = decide (imageA.val p ≤ aMax ∧ imageA.val p ≥ aMin) := by
    unfold inShape
    exact decide_eq_decide.mpr ⟨fun h => ⟨h.2, h.1⟩, fun h => ⟨h.2, h.1⟩⟩
  have hB : inShape imageB bMin bMax p = decide (imageB.val p ≤ bMax ∧ imageB.val p ≥ bMin) := by
    unfold inShape
    exact decide_eq_decide.mpr ⟨fun h => ⟨h.2, h.1⟩, fun h => ⟨h.2, h.1⟩⟩
  unfold voxelStep
  by_cases h1 : imageA.val p ≤ aMax ∧ imageA.val p ≥ aMin <;>
    by_cases h2 : imageB.val p ≤ bMax ∧ imageB.val p ≥ bMin <;>
    cases e <;>
    simp [h1, h2, hA, hB, catBinA, catCompBinCompA, catBnotInA, catNotBinA, collected, pushIf,
      List.countP_cons]

theorem voxelLoop_eq (imageA : Image3D) (aMin aMax : Int) (imageB : Image3D) (bMin bMax : Int)
    (e : Bool) (l : List Point) (s : VoxelsState) :
    l.foldl (voxelStep imageA aMin aMax imageB bMin bMax e) s =
      { numBinA := incrInt^[l.countP (catBinA imageA aMin aMax imageB bMin bMax)] s.numBinA
        numCompBinCompA :=
          incrInt^[l.countP (catCompBinCompA imageA aMin aMax imageB bMin bMax)]
            s.numCompBinCompA
        numBnotInA :=
          incrInt^[l.countP (catBnotInA imageA aMin aMax imageB bMin bMax)] s.numBnotInA
        numNotBinA :=
          incrInt^[l.countP (catNotBinA imageA aMin aMax imageB bMin bMax)] s.numNotBinA
        numTotalInA := incrInt^[l.countP (inShape imageA aMin aMax)] s.numTotalInA
        numTotalInB := incrInt^[l.countP (inShape imageB bMin bMax)] s.numTotalInB
        numTotalinCompA :=
          incrInt^[l.countP (fun q => !inShape imageA aMin aMax q)] s.numTotalinCompA
        numTotalinCompB :=
          incrInt^[l.countP (fun q => !inShape imageB bMin bMax q)] s.numTotalinCompB
        vectPtBinA :=
          s.vectPtBinA ++ collected e (catBinA imageA aMin aMax imageB bMin bMax) l
        vectPtCompBinCompA :=
          s.vectPtCompBinCompA ++
            collected e (catCompBinCompA imageA aMin aMax imageB bMin bMax) l
        vectPtBnotInA :=
          s.vectPtBnotInA ++ collected e (catBnotInA imageA aMin aMax imageB bMin bMax) l
        vectPtnotBInA :=
          s.vectPtnotBInA ++ collected e (catNotBinA imageA aMin aMax imageB bMin bMax) l } := by
  induction l generalizing s with
  | nil => simp [collected]
  | cons p l ih =>
    have hc : ∀ (cat : Point → Bool) (v : List Point),
        v ++ collected e cat [p] ++ collected e cat l = v ++ collected e cat (p :: l) := by
      intro cat v
      cases e <;> by_cases hp : cat p = true <;> simp [collected, List.filter_cons, hp]
    have hn : ∀ (cat : Point → Bool) (c : Int),
        incrInt^[l.countP cat] (incrInt^[[p].countP cat] c) = incrInt^[(p :: l).countP cat] c := by
      intro cat c
      rw [← Function.iterate_add_apply]
      congr 1
      simp [List.countP_cons]
    rw [List.foldl_cons, ih, voxelStep_eq]
    simp only [hc, hn]

/-- The final state of `getVoxelsStats`: every counter is the cardinality of
its category reduced to the `int` range, every vector its initial contents
followed by the collected points. -/
theorem getVoxelsStats_state (imageA : Image3D) (aMin aMax : Int) (imageB : Image3D)
    (bMin bMax : Int) (e : Bool) (v1 v2 v3 v4 : List Point) (prf : Bool) :
    (getVoxelsStats imageA aMin aMax imageB bMin bMax e v1 v2 v3 v4 prf).state =
      { numBinA := wrap32 (imageA.domain.card (catBinA imageA aMin aMax imageB bMin bMax))
        numCompBinCompA :=
          wrap32 (imageA.domain.card (catCompBinCompA imageA aMin aMax imageB bMin bMax))
        numBnotInA := wrap32 (imageA.domain.card (catBnotInA imageA aMin aMax imageB bMin bMax))
        numNotBinA := wrap32 (imageA.domain.card (catNotBinA imageA aMin aMax imageB bMin bMax))
        numTotalInA := wrap32 (imageA.domain.card (inShape imageA aMin aMax))
        numTotalInB := wrap32 (imageA.domain.card (inShape imageB bMin bMax))
        numTotalinCompA := wrap32 (imageA.domain.card (fun q => !inShape imageA aMin aMax q))
        numTotalinCompB := wrap32 (imageA.domain.card (fun q => !inShape imageB bMin bMax q))
        vectPtBinA :=
          v1 ++ collected e (catBinA imageA aMin aMax imageB bMin bMax) imageA.domain.points
        vectPtCompBinCompA :=
          v2 ++ collected e (catCompBinCompA imageA aMin aMax imageB bMin bMax)
            imageA.domain.points
        vectPtBnotInA :=
          v3 ++ collected e (catBnotInA imageA aMin aMax imageB bMin bMax) imageA.domain.points
        vectPtnotBInA :=
          v4 ++ collected e (catNotBinA imageA aMin aMax imageB bMin bMax)
            imageA.domain.points } := by
  unfold getVoxelsStats
  simp only [voxelLoop_eq, voxelsInit, iterate_incrInt_zero, Domain.card_eq_countP]

/-- With `precisionRecallFMean` set, the metrics printed are those of the
final counters. -/
theorem getVoxelsStats_metrics (imageA : Image3D) (aMin aMax : Int) (imageB : Image3D)
    (bMin bMax : Int) (e : Bool) (v1 v2 v3 v4 : List Point) :
    (getVoxelsStats imageA aMin aMax imageB bMin bMax e v1 v2 v3 v4 true).metrics =
      some (metricsOf
        (getVoxelsStats imageA aMin aMax imageB bMin bMax e v1 v2 v3 v4 true).state) := rfl

/-- The four categories split any list of points. -/
theorem countP_categories (imageA : Image3D) (aMin aMax : Int) (imageB : Image3D)
    (bMin bMax : Int) (l : List Point) :
    l.countP (catBinA imageA aMin aMax imageB bMin bMax) +
      l.countP (catCompBinCompA imageA aMin aMax imageB bMin bMax) +
      l.countP (catBnotInA imageA aMin aMax imageB bMin bMax) +
      l.countP (catNotBinA imageA aMin aMax imageB bMin bMax) = l.length := by
  induction l with
  | nil => simp
  | cons p l ih =>
    simp only [List.countP_cons, List.length_cons, catBinA, catCompBinCompA, catBnotInA,
      catNotBinA] at ih ⊢
    by_cases hA : inShape imageA aMin aMax p = true <;>
      by_cases hB : inShape imageB bMin bMax p = true <;>
      simp [hA, hB] <;> omega

theorem countP_inA_split (imageA : Image3D) (aMin aMax : Int) (imageB : Image3D)
    (bMin bMax : Int) (l : List Point) :
    l.countP (inShape imageA aMin aMax) =
      l.countP (catBinA imageA aMin aMax imageB bMin bMax) +
      l.countP (catNotBinA imageA aMin aMax imageB bMin bMax) := by
  induction l with
  | nil => simp
  | cons p l ih =>
    simp only [List.countP_cons, catBinA, catNotBinA] at ih ⊢
    by_cases hA : inShape imageA aMin aMax p = true <;>
      by_cases hB : inShape imageB bMin bMax p = true <;>
      simp [hA, hB] <;> omega

theorem countP_inB_split (imageA : Image3D) (aMin aMax : Int) (imageB : Image3D)
    (bMin bMax : Int) (l : List Point) :
    l.countP (inShape imageB bMin bMax) =
      l.countP (catBinA imageA aMin aMax imageB bMin bMax) +
      l.countP (catBnotInA imageA aMin aMax imageB bMin bMax) := by
  induction l with
  | nil => simp
  | cons p l ih =>
    simp only [List.countP_cons, catBinA, catBnotInA] at ih ⊢
    by_cases hA : inShape imageA aMin aMax p = true <;>
      by_cases hB : inShape imageB bMin bMax p = true <;>
      simp [hA, hB] <;> omega

theorem Domain.card_le_size (D : Domain) (P : Point → Bool) : D.card P ≤ D.size := by
  rw [D.card_eq_countP, ← D.length_points]
  exact List.countP_le_length _

theorem Domain.card_eq_zero (D : Domain) (P : Point → Bool)
    (h : ∀ p ∈ D.points, P p = false) : D.card P = 0 := by
  rw [D.card_eq_countP, List.countP_eq_zero]
  intro p hp
  simp [h p hp]

theorem Domain.card_categories (D : Domain) (imageA : Image3D) (aMin aMax : Int)
    (imageB : Image3D) (bMin bMax : Int) :
    D.card (catBinA imageA aMin aMax imageB bMin bMax) +
      D.card (catCompBinCompA imageA aMin aMax imageB bMin bMax) +
      D.card (catBnotInA imageA aMin aMax imageB bMin bMax) +
      D.card (catNotBinA imageA aMin aMax imageB bMin bMax) = D.pointSet.card := by
  simp only [D.card_eq_countP, countP_categories, D.card_pointSet, D.length_points]

theorem Domain.card_eq_size (D : Domain) (P : Point → Bool)
    (h : ∀ p ∈ D.points, P p = true) : D.card P = D.size := by
  rw [D.card_eq_countP, ← D.length_points, List.countP_eq_length]
  exact h

theorem Domain.card_prop (D : Domain) (P : Point → Bool) (Q : Point → Prop) [DecidablePred Q]
    (h : ∀ p, P p = true ↔ Q p) : D.card P = (D.pointSet.filter Q).card := by
  unfold Domain.card
  congr 1
  exact Finset.filter_congr fun p _ => h p

theorem wrap32_card (D : Domain) (P : Point → Bool) (h : D.size < 2 ^ 31) :
    wrap32 (D.card P) = D.card P :=
  wrap32_natCast_of_lt _ (lt_of_le_of_lt (D.card_le_size P) h)

theorem bigBox_size : bigBox.size = 2 ^ 31 := by decide

/-! ## Closed form of the loop of getStatsFromDistanceMap -/

theorem distanceStep_eq (imageA : Image3D) (aMin aMax : Int) (imageB : Image3D)
    (bMin bMax : Int) (fp : Bool) (dt : Point → ℚ) (s : DistanceState) (p : Point) :
    distanceStep imageA aMin aMax imageB bMin bMax fp dt s p =
      if selects imageA aMin aMax imageB bMin bMax fp p then addStep dt s p else s := by
  unfold distanceStep selects addStep
  by_cases h1 : ((!fp) || isDiff imageA aMin aMax imageB bMin bMax p) = true
  · by_cases h2 : s.maxDist < dt p <;> simp [h1, h2]
  · simp [h1]

theorem distanceLoop_filter (imageA : Image3D) (aMin aMax : Int) (imageB : Image3D)
    (bMin bMax : Int) (fp : Bool) (dt : Point → ℚ) (l : List Point) (s : DistanceState) :
    l.foldl (distanceStep imageA aMin aMax imageB bMin bMax fp dt) s =
      (l.filter (selects imageA aMin aMax imageB bMin bMax fp)).foldl (addStep dt) s := by
  induction l generalizing s with
  | nil => rfl
  | cons p l ih =>
    rw [List.foldl_cons, ih, distanceStep_eq, List.filter_cons]
    by_cases h : selects imageA aMin aMax imageB bMin bMax fp p = true <;> simp [h]

theorem addLoop_samples (dt : Point → ℚ) (l : List Point) (s : DistanceState) :
    (l.foldl (addStep dt) s).stats.samples = s.stats.samples ++ l.map dt := by
  induction l generalizing s with
  | nil => simp
  | cons p l ih => simp [ih, addStep, Statistic.addValue]

theorem storePoint_some (p0 it : Point) : storePoint (some p0) it = some it := rfl

/-- The maximum tracked by the loop: either no visited point exceeded the
entry value of `maxDist` and nothing changed, or the recorded point is a visited
point whose distance is the largest of all. -/
theorem addLoop_ptMax (dt : Point → ℚ) (l : List Point) (s : DistanceState) (p0 : Point)
    (h0 : s.ptMax = some p0) :
    ((l.foldl (addStep dt) s).ptMax = some p0 ∧ (l.foldl (addStep dt) s).maxDist = s.maxDist ∧
        ∀ p ∈ l, dt p ≤ s.maxDist) ∨
      ∃ q ∈ l, (l.foldl (addStep dt) s).ptMax = some q ∧
        (l.foldl (addStep dt) s).maxDist = dt q ∧ s.maxDist < dt q ∧ ∀ p ∈ l, dt p ≤ dt q := by
  induction l generalizing s p0 with
  | nil => left; simp [h0]
  | cons a l ih =>
    rw [List.foldl_cons]
    by_cases ha : s.maxDist < dt a
    · have hs : (addStep dt s a).ptMax = some a := by
        simp [addStep, ha, h0, storePoint_some]
      have hm : (addStep dt s a).maxDist = dt a := by simp [addStep, ha]
      rcases ih (addStep dt s a) a hs with ⟨h1, h2, h3⟩ | ⟨q, hq, h1, h2, h3, h4⟩
      · right
        refine ⟨a, List.mem_cons_self _ _, h1, by rw [h2, hm], ha, ?_⟩
        intro p hp
        rcases List.mem_cons.mp hp with rfl | hp
        · exact le_refl _
        · rw [← hm]; exact h3 p hp
      · right
        rw [hm] at h3
        refine ⟨q, List.mem_cons_of_mem _ hq, h1, h2, lt_trans ha h3, ?_⟩
        intro p hp
        rcases List.mem_cons.mp hp with rfl | hp
        · exact le_of_lt h3
        · exact h4 p hp
    · have hs : (addStep dt s a).ptMax = some p0 := by simp [addStep, ha, h0]
      have hm : (addStep dt s a).maxDist = s.maxDist := by simp [addStep, ha]
      rcases ih (addStep dt s a) p0 hs with ⟨h1, h2, h3⟩ | ⟨q, hq, h1, h2, h3, h4⟩
      · left
        refine ⟨h1, by rw [h2, hm], ?_⟩
        intro p hp
        rcases List.mem_cons.mp hp with rfl | hp
        · exact not_lt.mp ha
        · rw [← hm]; exact h3 p hp
      · right
        rw [hm] at h3
        refine ⟨q, List.mem_cons_of_mem _ hq, h1, h2, h3, ?_⟩
        intro p hp
        rcases List.mem_cons.mp hp with rfl | hp
        · exact le_trans (not_lt.mp ha) (le_of_lt h3)
        · exact h4 p hp

theorem addLoop_ptMax_none (dt : Point → ℚ) (l : List Point) (s : DistanceState)
    (h0 : s.ptMax = none) : (l.foldl (addStep dt) s).ptMax = none := by
  induction l generalizing s with
  | nil => simpa using h0
  | cons a l ih =>
    rw [List.foldl_cons]
    apply ih
    by_cases ha : s.maxDist < dt a <;> simp [addStep, ha, h0, storePoint]

theorem distanceLoop_eq (env : DGtalEnv) (stats : Statistic) (imageA : Image3D)
    (aMin aMax : Int) (imageB : Image3D) (bMin bMax : Int) (fp : Bool) (ptMax : Option Point) :
    distanceLoop env stats imageA aMin aMax imageB bMin bMax fp ptMax =
      (selectedPoints env imageA aMin aMax imageB bMin bMax fp).foldl
        (addStep (dtL2 env imageA aMin aMax))
        { stats := stats, nbAdded := 0, maxDist := 0, ptMax := ptMax } := by
  unfold distanceLoop selectedPoints
  rw [distanceLoop_filter]
  rfl

/-- The values added to the statistic are the distances of the selected
points, in the order of the visit. -/
theorem getStatsFromDistanceMap_samples (env : DGtalEnv) (stats : Statistic) (imageA : Image3D)
    (aMin aMax : Int) (imageB : Image3D) (bMin bMax : Int) (fp : Bool) (ptMax : Option Point) :
    (getStatsFromDistanceMap env stats imageA aMin aMax imageB bMin bMax fp ptMax).stats.samples =
      stats.samples ++
        (selectedPoints env imageA aMin aMax imageB bMin bMax fp).map
          (dtL2 env imageA aMin aMax) := by
  unfold getStatsFromDistanceMap
  simp only [distanceLoop_eq, addLoop_samples]

theorem Domain.card_eq_size_of_box (D D' : Domain) (P : Point → Bool)
    (h : ∀ p, p ∈ D'.points ↔ p ∈ D.points ∧ P p = true) : D.card P = D'.size := by
  rw [← D'.card_pointSet]
  unfold Domain.card Domain.pointSet
  congr 1
  ext p
  simp only [Finset.mem_filter, List.mem_toFinset]
  exact (h p).symm

/-! ## The counters on a domain of `2^31` voxels -/

theorem wrap32_two_pow_31 : wrap32 ((2 ^ 31 : Nat) : Int) = -2147483648 := by
  unfold wrap32; norm_num

theorem halfBox_size : halfBox.size = 2 ^ 30 := by decide

theorem upperHalfBox_size : upperHalfBox.size = 2 ^ 30 := by decide

/-- The counters of `getVoxelsStats` on `bigOnes` against itself: every voxel
is in both shapes and the three counters that see all `2^31` voxels have
left the `int` range. -/
theorem bigOnes_state :
    (getVoxelsStats bigOnes 1 1 bigOnes 1 1 false [] [] [] [] false).state =
      { numBinA := -2147483648, numCompBinCompA := 0, numBnotInA := 0, numNotBinA := 0,
        numTotalInA := -2147483648, numTotalInB := -2147483648, numTotalinCompA := 0,
        numTotalinCompB := 0, vectPtBinA := [], vectPtCompBinCompA := [], vectPtBnotInA := [],
        vectPtnotBInA := [] } := by
  have hin : ∀ p, inShape bigOnes 1 1 p = true := by
    intro p; simp [inShape, bigOnes]
  have hsz : bigOnes.domain.size = 2 ^ 31 := bigBox_size
  rw [getVoxelsStats_state]
  rw [Domain.card_eq_size _ (catBinA bigOnes 1 1 bigOnes 1 1) (by intro p _; simp [catBinA, hin]),
    Domain.card_eq_zero _ (catCompBinCompA bigOnes 1 1 bigOnes 1 1)
      (by intro p _; simp [catCompBinCompA, hin]),
    Domain.card_eq_zero _ (catBnotInA bigOnes 1 1 bigOnes 1 1)
      (by intro p _; simp [catBnotInA, hin]),
    Domain.card_eq_zero _ (catNotBinA bigOnes 1 1 bigOnes 1 1)
      (by intro p _; simp [catNotBinA, hin]),
    Domain.card_eq_size _ (inShape bigOnes 1 1) (by intro p _; exact hin p),
    Domain.card_eq_zero _ (fun q => !inShape bigOnes 1 1 q) (by intro p _; simp [hin])]
  simp only [hsz, wrap32_two_pow_31, collected]
  simp [wrap32_zero]

/-- The counters of `getVoxelsStats` on `bigOnes` against `bigHalf`: the
`2^31` voxels of A split into two halves of `2^30`, one in B and one not. -/
theorem bigHalf_counts :
    (getVoxelsStats bigOnes 1 1 bigHalf 1 1 false [] [] [] [] false).state.numTotalInA =
        -2147483648 ∧
      (getVoxelsStats bigOnes 1 1 bigHalf 1 1 false [] [] [] [] false).state.numBinA =
        1073741824 ∧
      (getVoxelsStats bigOnes 1 1 bigHalf 1 1 false [] [] [] [] false).state.numNotBinA =
        1073741824 := by
  have hA : ∀ p, inShape bigOnes 1 1 p = true := by
    intro p; simp [inShape, bigOnes]
  have hB : ∀ p, inShape bigHalf 1 1 p = decide (p.z ≤ 511) := by
    intro p
    by_cases hz : p.z ≤ 511 <;> simp [inShape, bigHalf, hz]
  have hsz : bigOnes.domain.size = 2 ^ 31 := bigBox_size
  have hd : bigOnes.domain = bigBox := rfl
  have h1 : bigOnes.domain.card (inShape bigOnes 1 1) = 2 ^ 31 := by
    rw [Domain.card_eq_size _ _ (by intro p _; exact hA p), hsz]
  have h2 : bigOnes.domain.card (catBinA bigOnes 1 1 bigHalf 1 1) = 2 ^ 30 := by
    rw [Domain.card_eq_size_of_box _ halfBox, halfBox_size]
    intro p
    simp only [catBinA, hA, hB, Bool.true_and, decide_eq_true_eq, hd]
    simp only [Domain.mem_points, bigBox, halfBox]
    omega
  have h3 : bigOnes.domain.card (catNotBinA bigOnes 1 1 bigHalf 1 1) = 2 ^ 30 := by
    rw [Domain.card_eq_size_of_box _ upperHalfBox, upperHalfBox_size]
    intro p
    simp only [catNotBinA, hA, hB, Bool.true_and, Bool.not_eq_true', decide_eq_false_iff_not, hd]
    simp only [Domain.mem_points, bigBox, upperHalfBox]
    omega
  rw [getVoxelsStats_state]
  simp only [h1, h2, h3]
  refine ⟨wrap32_two_pow_31, ?_, ?_⟩ <;> (unfold wrap32; norm_num)

/-- Taken in 32-bit arithmetic, the totals are the sums of their two
categories on every input. -/
theorem getVoxelsStats_totals_wrap (imageA : Image3D) (aMin aMax : Int) (imageB : Image3D)
    (bMin bMax : Int) (e : Bool) (v1 v2 v3 v4 : List Point) (prf : Bool) :
    (getVoxelsStats imageA aMin aMax imageB bMin bMax e v1 v2 v3 v4 prf).state.numTotalInA =
        wrap32
          ((getVoxelsStats imageA aMin aMax imageB bMin bMax e v1 v2 v3 v4 prf).state.numBinA +
            (getVoxelsStats imageA aMin aMax imageB bMin bMax e v1 v2 v3 v4 prf).state.numNotBinA) ∧
      (getVoxelsStats imageA aMin aMax imageB bMin bMax e v1 v2 v3 v4 prf).state.numTotalInB =
        wrap32
          ((getVoxelsStats imageA aMin aMax imageB bMin bMax e v1 v2 v3 v4 prf).state.numBinA +
            (getVoxelsStats imageA aMin aMax imageB bMin bMax e v1 v2 v3 v4 prf).state.numBnotInA) := by
  rw [getVoxelsStats_state]
  simp only [wrap32_add_wrap32, Domain.card_eq_countP]
  rw [countP_inA_split imageA aMin aMax imageB bMin bMax,
    countP_inB_split imageA aMin aMax imageB bMin bMax]
  push_cast
  exact ⟨rfl, rfl⟩

theorem wrap32_wrap32 (k : Int) : wrap32 (wrap32 k) = wrap32 k := by
  unfold wrap32; omega

theorem ratio_self (n : Int) (h : n ≠ 0) : ratio n n = some 1 := by
  have hq : (n : ℚ) ≠ 0 := by exact_mod_cast h
  simp [ratio, h, div_self hq]

theorem ratio_zero_den (n : Int) : ratio n 0 = none := by
  simp [ratio]

theorem fMean_one : fMean (some 1) (some 1) = some 1 := by
  simp only [fMean]
  norm_num

/-! ## Which values of image B the classifier reads -/

/-- The call to `getVoxelsStats` made by `main`, whatever the switches. -/
theorem main_voxels_eq (env : DGtalEnv) (cfg : Config) (imageA imageB : Image3D) :
    (main env cfg imageA imageB).voxels =
      getVoxelsStats imageA cfg.aMin cfg.aMax imageB cfg.bMin cfg.bMax cfg.exportSDP
        [] [] [] [] cfg.displayTFstats := by
  unfold main mainVoxels getVoxelsStatsCounts
  cases h1 : cfg.exportSDP <;> cases h2 : cfg.displayTFstats <;> simp

theorem voxelStep_congr (imageA : Image3D) (aMin aMax : Int) (imageB imageB' : Image3D)
    (bMin bMax : Int) (e : Bool) (s : VoxelsState) (p : Point)
    (h : imageB'.val p = imageB.val p) :
    voxelStep imageA aMin aMax imageB' bMin bMax e s p =
      voxelStep imageA aMin aMax imageB bMin bMax e s p := by
  unfold voxelStep
  rw [h]

/-- The result of `getVoxelsStats` depends on image B only through the values
read at the points of the domain of image A. -/
theorem getVoxelsStats_congr (imageA : Image3D) (aMin aMax : Int) (imageB imageB' : Image3D)
    (bMin bMax : Int) (e : Bool) (v1 v2 v3 v4 : List Point) (prf : Bool)
    (h : ∀ p ∈ imageA.domain.points, imageB'.val p = imageB.val p) :
    getVoxelsStats imageA aMin aMax imageB' bMin bMax e v1 v2 v3 v4 prf =
      getVoxelsStats imageA aMin aMax imageB bMin bMax e v1 v2 v3 v4 prf := by
  unfold getVoxelsStats
  rw [List.foldl_ext _ _ _ (fun s p hp =>
    voxelStep_congr imageA aMin aMax imageB imageB' bMin bMax e s p (h p hp))]

/-- Turning a predicate from false to true at one point of the domain adds one
to the number of points that satisfy it. -/
theorem Domain.card_flip (D : Domain) (P P' : Point → Bool) (q : Point) (hq : q ∈ D.points)
    (hP : P q = true) (hP' : P' q = false) (h : ∀ p ∈ D.points, p ≠ q → P' p = P p) :
    D.card P = D.card P' + 1 := by
  unfold Domain.card
  have hins : (D.pointSet.filter fun p => P p = true) =
      insert q (D.pointSet.filter fun p => P' p = true) := by
    ext p
    simp only [Finset.mem_filter, Finset.mem_insert, Domain.pointSet, List.mem_toFinset]
    constructor
    · rintro ⟨hp, hPp⟩
      by_cases hne : p = q
      · exact Or.inl hne
      · exact Or.inr ⟨hp, by rw [h p hp hne]; exact hPp⟩
    · rintro (rfl | ⟨hp, hPp⟩)
      · exact ⟨hq, hP⟩
      · have hne : p ≠ q := by
          rintro rfl
          rw [hP'] at hPp
          exact Bool.false_ne_true hPp
        exact ⟨hp, by rw [← h p hp hne]; exact hPp⟩
  rw [hins, Finset.card_insert_of_not_mem]
  simp [hP']

theorem wrap32_succ_ne (n : Nat) : wrap32 ((n + 1 : Nat) : Int) ≠ wrap32 (n : Int) := by
  unfold wrap32
  omega

/-! # Properties of the specification -/

/-- C1 (as amended): for every pair of images and every four thresholds, when
the domain of image A has fewer than `2^31` points the four category counts of
`getVoxelsStats` add up to the number of points of that domain. -/
theorem getVoxelsStats_sum_eq_size (imageA : Image3D) (aMin aMax : Int) (imageB : Image3D)
    (bMin bMax : Int) (e : Bool) (v1 v2 v3 v4 : List Point) (prf : Bool)
    (h : imageA.domain.size < 2 ^ 31) :
    (getVoxelsStats imageA aMin aMax imageB bMin bMax e v1 v2 v3 v4 prf).state.numBinA +
      (getVoxelsStats imageA aMin aMax imageB bMin bMax e v1 v2 v3 v4 prf).state.numCompBinCompA +
      (getVoxelsStats imageA aMin aMax imageB bMin bMax e v1 v2 v3 v4 prf).state.numBnotInA +
      (getVoxelsStats imageA aMin aMax imageB bMin bMax e v1 v2 v3 v4 prf).state.numNotBinA =
      (imageA.domain.pointSet.card : Int) := by
  rw [getVoxelsStats_state]
  simp only [wrap32_card _ _ h]
  exact_mod_cast imageA.domain.card_categories imageA aMin aMax imageB bMin bMax

/-- C1 (witness): the two-voxel images `twoA` and `twoB` under the default
thresholds. -/
theorem getVoxelsStats_sum_eq_size_witness :
    (getVoxelsStats twoA 0 128 twoB 0 128 true [] [] [] [] true).state.numBinA +
      (getVoxelsStats twoA 0 128 twoB 0 128 true [] [] [] [] true).state.numCompBinCompA +
      (getVoxelsStats twoA 0 128 twoB 0 128 true [] [] [] [] true).state.numBnotInA +
      (getVoxelsStats twoA 0 128 twoB 0 128 true [] [] [] [] true).state.numNotBinA =
      (twoA.domain.pointSet.card : Int) :=
  getVoxelsStats_sum_eq_size twoA 0 128 twoB 0 128 true [] [] [] [] true (by decide)

/-- C1 (counterexample): on a domain of `2^31` voxels, all of them in both
shapes, the four category counts add up to `-2^31`, not to the `2^31` points of
the domain. -/
theorem getVoxelsStats_sum_ne_size_bigOnes :
    (getVoxelsStats bigOnes 1 1 bigOnes 1 1 false [] [] [] [] false).state.numBinA +
      (getVoxelsStats bigOnes 1 1 bigOnes 1 1 false [] [] [] [] false).state.numCompBinCompA +
      (getVoxelsStats bigOnes 1 1 bigOnes 1 1 false [] [] [] [] false).state.numBnotInA +
      (getVoxelsStats bigOnes 1 1 bigOnes 1 1 false [] [] [] [] false).state.numNotBinA ≠
        (bigOnes.domain.pointSet.card : Int) ∧
      (getVoxelsStats bigOnes 1 1 bigOnes 1 1 false [] [] [] [] false).state.numBinA =
        -2147483648 ∧
      (bigOnes.domain.pointSet.card : Int) = 2147483648 := by
  have hsz : bigOnes.domain.size = 2 ^ 31 := bigBox_size
  rw [bigOnes_state, Domain.card_pointSet, hsz]
  norm_num

/-- C2 (as amended): when the domain of image A has fewer than `2^31` points,
each of the eight counts of `getVoxelsStats` is the cardinality of its reference
set under inclusive thresholds (`CountsAreCardinalities`). -/
theorem getVoxelsStats_counts_eq_card (imageA : Image3D) (aMin aMax : Int) (imageB : Image3D)
    (bMin bMax : Int) (e : Bool) (v1 v2 v3 v4 : List Point) (prf : Bool)
    (h : imageA.domain.size < 2 ^ 31) :
    CountsAreCardinalities imageA aMin aMax imageB bMin bMax
      (getVoxelsStats imageA aMin aMax imageB bMin bMax e v1 v2 v3 v4 prf).state := by
  unfold CountsAreCardinalities
  rw [getVoxelsStats_state]
  simp only [wrap32_card _ _ h, Nat.cast_inj]
  refine ⟨?_, ?_, ?_, ?_, ?_, ?_, ?_, ?_⟩ <;>
    exact Domain.card_prop _ _ _
      (by
        intro p
        simp only [catBinA, catCompBinCompA, catBnotInA, catNotBinA, inShape,
          Bool.and_eq_true, Bool.not_eq_true', decide_eq_true_eq, decide_eq_false_iff_not])

/-- C2 (witness): the two-voxel images `twoA` and `twoB` under the default
thresholds. -/
theorem getVoxelsStats_counts_eq_card_witness :
    CountsAreCardinalities twoA 0 128 twoB 0 128
      (getVoxelsStats twoA 0 128 twoB 0 128 true [] [] [] [] true).state :=
  getVoxelsStats_counts_eq_card twoA 0 128 twoB 0 128 true [] [] [] [] true (by decide)

/-- C2 (counterexample): on a domain of `2^31` voxels, all of them in both
shapes, the counts are not the cardinalities of their reference sets: `numBinA`
is negative. -/
theorem getVoxelsStats_counts_ne_card_bigOnes :
    ¬ CountsAreCardinalities bigOnes 1 1 bigOnes 1 1
      (getVoxelsStats bigOnes 1 1 bigOnes 1 1 false [] [] [] [] false).state := by
  intro h
  have h1 := h.1
  rw [bigOnes_state] at h1
  simp only at h1
  omega

/-- C3 (as amended): when the domain of image A has fewer than `2^31` points,
`numTotalInA = numBinA + numNotBinA` and `numTotalInB = numBinA + numBnotInA`. -/
theorem getVoxelsStats_totals (imageA : Image3D) (aMin aMax : Int) (imageB : Image3D)
    (bMin bMax : Int) (e : Bool) (v1 v2 v3 v4 : List Point) (prf : Bool)
    (h : imageA.domain.size < 2 ^ 31) :
    (getVoxelsStats imageA aMin aMax imageB bMin bMax e v1 v2 v3 v4 prf).state.numTotalInA =
        (getVoxelsStats imageA aMin aMax imageB bMin bMax e v1 v2 v3 v4 prf).state.numBinA +
          (getVoxelsStats imageA aMin aMax imageB bMin bMax e v1 v2 v3 v4 prf).state.numNotBinA ∧
      (getVoxelsStats imageA aMin aMax imageB bMin bMax e v1 v2 v3 v4 prf).state.numTotalInB =
        (getVoxelsStats imageA aMin aMax imageB bMin bMax e v1 v2 v3 v4 prf).state.numBinA +
          (getVoxelsStats imageA aMin aMax imageB bMin bMax e v1 v2 v3 v4 prf).state.numBnotInA := by
  rw [getVoxelsStats_state]
  simp only [wrap32_card _ _ h]
  simp only [Domain.card_eq_countP]
  rw [countP_inA_split imageA aMin aMax imageB bMin bMax,
    countP_inB_split imageA aMin aMax imageB bMin bMax]
  push_cast
  exact ⟨rfl, rfl⟩

/-- C3 (witness): the two-voxel images `twoA` and `twoB` under the default
thresholds. -/
theorem getVoxelsStats_totals_witness :
    (getVoxelsStats twoA 0 128 twoB 0 128 true [] [] [] [] true).state.numTotalInA =
        (getVoxelsStats twoA 0 128 twoB 0 128 true [] [] [] [] true).state.numBinA +
          (getVoxelsStats twoA 0 128 twoB 0 128 true [] [] [] [] true).state.numNotBinA ∧
      (getVoxelsStats twoA 0 128 twoB 0 128 true [] [] [] [] true).state.numTotalInB =
        (getVoxelsStats twoA 0 128 twoB 0 128 true [] [] [] [] true).state.numBinA +
          (getVoxelsStats twoA 0 128 twoB 0 128 true [] [] [] [] true).state.numBnotInA :=
  getVoxelsStats_totals twoA 0 128 twoB 0 128 true [] [] [] [] true (by decide)

/-- C3 (counterexample): on a domain of `2^31` voxels, all of them in A and
half of them in B, `numTotalInA` is `-2^31` while `numBinA + numNotBinA` is
`2^30 + 2^30`. -/
theorem getVoxelsStats_totalInA_ne_sum_bigHalf :
    (getVoxelsStats bigOnes 1 1 bigHalf 1 1 false [] [] [] [] false).state.numTotalInA ≠
      (getVoxelsStats bigOnes 1 1 bigHalf 1 1 false [] [] [] [] false).state.numBinA +
        (getVoxelsStats bigOnes 1 1 bigHalf 1 1 false [] [] [] [] false).state.numNotBinA := by
  obtain ⟨h1, h2, h3⟩ := bigHalf_counts
  rw [h1, h2, h3]
  norm_num

/-- C4 (as amended): no domain check is made, whether or not the two images
have the same domain. A run without distance comparison sends nothing to
`trace.error()`, and the classifier sweeps the domain of image A reading image B
at each of its points: when the value read in B at one point `q` of the domain of
A moves from inside B's thresholds to outside them, the count `numTotalInB`
changes, and the counts are the same for any two images B with the same values at
the points of the domain of A. -/
theorem main_domain_unchecked (env : DGtalEnv) (cfg : Config) (imageA imageB imageB' : Image3D)
    (q : Point) (hn : cfg.noDistanceComparisons = true) (hq : q ∈ imageA.domain.points)
    (hB : cfg.bMin ≤ imageB.val q ∧ imageB.val q ≤ cfg.bMax)
    (hB' : ¬ (cfg.bMin ≤ imageB'.val q ∧ imageB'.val q ≤ cfg.bMax))
    (hag : ∀ p ∈ imageA.domain.points, p ≠ q → imageB'.val p = imageB.val p) :
    (main env cfg imageA imageB).diagnostics = [] ∧
      (main env cfg imageA imageB').diagnostics = [] ∧
      (main env cfg imageA imageB).voxels.state.numTotalInB ≠
        (main env cfg imageA imageB').voxels.state.numTotalInB ∧
      ∀ imageB'' : Image3D, (∀ p ∈ imageA.domain.points, imageB''.val p = imageB.val p) →
        (main env cfg imageA imageB'').voxels = (main env cfg imageA imageB).voxels := by
  refine ⟨by simp [main, mainDistances, hn], by simp [main, mainDistances, hn], ?_, ?_⟩
  · rw [main_voxels_eq, main_voxels_eq, getVoxelsStats_state, getVoxelsStats_state]
    have hflip := imageA.domain.card_flip (inShape imageB cfg.bMin cfg.bMax)
      (inShape imageB' cfg.bMin cfg.bMax) q hq
      (by unfold inShape; exact decide_eq_true hB)
      (by unfold inShape; exact decide_eq_false hB')
      (by
        intro p hp hne
        unfold inShape
        rw [hag p hp hne])
    simp only [hflip]
    exact wrap32_succ_ne _
  · intro imageB'' h
    rw [main_voxels_eq, main_voxels_eq]
    exact getVoxelsStats_congr imageA cfg.aMin cfg.aMax imageB imageB'' cfg.bMin cfg.bMax _
      [] [] [] [] _ h

/-- C4 (witness): the one-voxel image `oneA` against the two-voxel images
`twoB` (value 1) and `twoOff` (value 200), whose domain is not that of `oneA`. -/
theorem main_domain_unchecked_witness :
    oneA.domain ≠ twoB.domain ∧ oneA.domain ≠ twoOff.domain ∧
      (main unitEnv countsOnlyConfig oneA twoB).diagnostics = [] ∧
      (main unitEnv countsOnlyConfig oneA twoOff).diagnostics = [] ∧
      (main unitEnv countsOnlyConfig oneA twoB).voxels.state.numTotalInB ≠
        (main unitEnv countsOnlyConfig oneA twoOff).voxels.state.numTotalInB ∧
      (main unitEnv countsOnlyConfig oneA (twoB.over oneA)).voxels =
        (main unitEnv countsOnlyConfig oneA twoB).voxels :=
  ⟨by decide, by decide,
    (main_domain_unchecked unitEnv countsOnlyConfig oneA twoB twoOff ⟨0, 0, 0⟩ rfl
      (by decide) (by decide) (by decide) (by decide)).1,
    (main_domain_unchecked unitEnv countsOnlyConfig oneA twoB twoOff ⟨0, 0, 0⟩ rfl
      (by decide) (by decide) (by decide) (by decide)).2.1,
    (main_domain_unchecked unitEnv countsOnlyConfig oneA twoB twoOff ⟨0, 0, 0⟩ rfl
      (by decide) (by decide) (by decide) (by decide)).2.2.1,
    (main_domain_unchecked unitEnv countsOnlyConfig oneA twoB twoOff ⟨0, 0, 0⟩ rfl
      (by decide) (by decide) (by decide) (by decide)).2.2.2 (twoB.over oneA)
      (fun _ _ => rfl)⟩

/-- C4 (counterexample): image A has one voxel and image B two, so the domains
differ; yet the run reports no error and prints counts (`numBinA = 1`), and the
count changes with the value of B at the voxel of A, so that voxel is read. -/
theorem main_domain_mismatch_oneA_twoB :
    oneA.domain ≠ twoB.domain ∧ oneA.domain ≠ twoOff.domain ∧
      (main unitEnv countsOnlyConfig oneA twoB).diagnostics = [] ∧
      (main unitEnv countsOnlyConfig oneA twoB).voxels.state.numBinA = 1 ∧
      (main unitEnv countsOnlyConfig oneA twoB).voxels.state.numTotalInB = 1 ∧
      (main unitEnv countsOnlyConfig oneA twoOff).voxels.state.numBinA = 0 := by
  refine ⟨by decide, by decide, by decide, by decide, by decide, by decide⟩

/-- C5 (the code at the failing input): with `--distancesFromBnotInAOnly` set,
`main` still adds the distances of both voxels of B, `(0,0,0)` which is in A and
`(1,0,0)` which is not, whereas `getStatsFromDistanceMap` under the policy
`statOnFalsePositiveOnly = true` adds that of `(1,0,0)` alone. -/
theorem main_ignores_distancesFromBnotInAOnly :
    falsePositiveConfig.distancesFromBnotInAOnly = true ∧
      (main unitEnv falsePositiveConfig twoA twoB).distances =
        some (getStatsFromDistanceMap unitEnv { samples := [] } twoA 0 128 twoB 0 128 false
          (some Point.origin)) ∧
      selectedPoints unitEnv twoA 0 128 twoB 0 128 false = [⟨0, 0, 0⟩, ⟨1, 0, 0⟩] ∧
      selectedPoints unitEnv twoA 0 128 twoB 0 128 true = [⟨1, 0, 0⟩] ∧
      ((main unitEnv falsePositiveConfig twoA twoB).distances.map fun d =>
        d.stats.samples.length) = some 2 ∧
      (getStatsFromDistanceMap unitEnv { samples := [] } twoA 0 128 twoB 0 128 true
        (some Point.origin)).stats.samples.length = 1 := by
  refine ⟨rfl, rfl, by decide, by decide, ?_, ?_⟩
  · simp only [main, mainDistances, falsePositiveConfig, Option.map]
    simp [getStatsFromDistanceMap_samples]
    decide
  · rw [getStatsFromDistanceMap_samples]
    simp
    decide

/-- C6 (as amended): for every distance field, every order of visit and every
selection in which some point has a strictly positive distance, the point left
in a non-null `ptMax` by `getStatsFromDistanceMap` is one of the selected points
and no selected point has a larger distance. -/
theorem getStatsFromDistanceMap_ptMax (env : DGtalEnv) (stats : Statistic) (imageA : Image3D)
    (aMin aMax : Int) (imageB : Image3D) (bMin bMax : Int) (fp : Bool) (p0 : Point)
    (h : ∃ p ∈ selectedPoints env imageA aMin aMax imageB bMin bMax fp,
      0 < dtL2 env imageA aMin aMax p) :
    ∃ q ∈ selectedPoints env imageA aMin aMax imageB bMin bMax fp,
      (getStatsFromDistanceMap env stats imageA aMin aMax imageB bMin bMax fp (some p0)).ptMax =
          some q ∧
        ∀ p ∈ selectedPoints env imageA aMin aMax imageB bMin bMax fp,
          dtL2 env imageA aMin aMax p ≤ dtL2 env imageA aMin aMax q := by
  obtain ⟨p, hp, hpos⟩ := h
  have hloop := addLoop_ptMax (dtL2 env imageA aMin aMax)
    (selectedPoints env imageA aMin aMax imageB bMin bMax fp)
    { stats := stats, nbAdded := 0, maxDist := 0, ptMax := some p0 } p0 rfl
  unfold getStatsFromDistanceMap
  simp only [distanceLoop_eq]
  rcases hloop with ⟨_, _, h3⟩ | ⟨q, hq, h1, _, _, h4⟩
  · exact absurd (h3 p hp) (not_le.mpr hpos)
  · exact ⟨q, hq, h1, h4⟩

/-- C6 (witness): `twoA` against `twoB`, where the voxel `(1,0,0)` of B lies at
distance 1 from the shape of A. -/
theorem getStatsFromDistanceMap_ptMax_witness :
    ∃ q ∈ selectedPoints unitEnv twoA 0 128 twoB 0 128 false,
      (getStatsFromDistanceMap unitEnv { samples := [] } twoA 0 128 twoB 0 128 false
          (some Point.origin)).ptMax = some q ∧
        ∀ p ∈ selectedPoints unitEnv twoA 0 128 twoB 0 128 false,
          dtL2 unitEnv twoA 0 128 p ≤ dtL2 unitEnv twoA 0 128 q :=
  getStatsFromDistanceMap_ptMax unitEnv { samples := [] } twoA 0 128 twoB 0 128 false
    Point.origin ⟨⟨1, 0, 0⟩, by decide, by decide⟩

/-- C6 (counterexample): the single voxel `(5,5,5)` is in both shapes, so the
selection is not empty and its only distance is 0; after the call `ptMax` still
holds the point `(0,0,0)` it held before, which is not a selected point. -/
theorem getStatsFromDistanceMap_ptMax_unset_farA :
    selectedPoints unitEnv farA 0 128 farA 0 128 false = [⟨5, 5, 5⟩] ∧
      dtL2 unitEnv farA 0 128 ⟨5, 5, 5⟩ = 0 ∧
      (getStatsFromDistanceMap unitEnv { samples := [] } farA 0 128 farA 0 128 false
        (some Point.origin)).ptMax = some ⟨0, 0, 0⟩ ∧
      (⟨0, 0, 0⟩ : Point) ∉ selectedPoints unitEnv farA 0 128 farA 0 128 false := by
  refine ⟨by decide, by decide, by decide, by decide⟩

/-- C8: when the memberships of A and B agree at every point of the domain,
`getVoxelsStats` yields `numBnotInA = 0` and `numNotBinA = 0`, and when
`numBinA > 0` precision, recall and F-measure are all 1. -/
theorem getVoxelsStats_identical_shapes (imageA : Image3D) (aMin aMax : Int)
    (imageB : Image3D) (bMin bMax : Int) (e : Bool) (v1 v2 v3 v4 : List Point)
    (h : ∀ p ∈ imageA.domain.points,
      (aMin ≤ imageA.val p ∧ imageA.val p ≤ aMax) ↔ (bMin ≤ imageB.val p ∧ imageB.val p ≤ bMax)) :
    (getVoxelsStats imageA aMin aMax imageB bMin bMax e v1 v2 v3 v4 true).state.numBnotInA = 0 ∧
      (getVoxelsStats imageA aMin aMax imageB bMin bMax e v1 v2 v3 v4 true).state.numNotBinA = 0 ∧
      (0 < (getVoxelsStats imageA aMin aMax imageB bMin bMax e v1 v2 v3 v4 true).state.numBinA →
        (getVoxelsStats imageA aMin aMax imageB bMin bMax e v1 v2 v3 v4 true).metrics =
          some { precision := some 1, recallV := some 1, fmean := some 1 }) := by
  have hs : ∀ p ∈ imageA.domain.points,
      inShape imageA aMin aMax p = inShape imageB bMin bMax p := by
    intro p hp
    unfold inShape
    exact decide_eq_decide.mpr (h p hp)
  have h1 : imageA.domain.card (catBnotInA imageA aMin aMax imageB bMin bMax) = 0 :=
    Domain.card_eq_zero _ _ (by intro p hp; simp [catBnotInA, hs p hp])
  have h2 : imageA.domain.card (catNotBinA imageA aMin aMax imageB bMin bMax) = 0 :=
    Domain.card_eq_zero _ _ (by intro p hp; simp [catNotBinA, hs p hp])
  have hm := getVoxelsStats_metrics imageA aMin aMax imageB bMin bMax e v1 v2 v3 v4
  rw [hm, getVoxelsStats_state]
  simp only [h1, h2, Nat.cast_zero, wrap32_zero, metricsOf, add_zero, wrap32_wrap32]
  refine ⟨trivial, trivial, ?_⟩
  intro hpos
  rw [ratio_self _ (ne_of_gt hpos), fMean_one]

/-- C8 (witness): `twoB` against itself under the default thresholds, where
`numBinA` is 2. -/
theorem getVoxelsStats_identical_shapes_witness :
    (getVoxelsStats twoB 0 128 twoB 0 128 true [] [] [] [] true).state.numBnotInA = 0 ∧
      (getVoxelsStats twoB 0 128 twoB 0 128 true [] [] [] [] true).state.numNotBinA = 0 ∧
      (getVoxelsStats twoB 0 128 twoB 0 128 true [] [] [] [] true).state.numBinA = 2 ∧
      (getVoxelsStats twoB 0 128 twoB 0 128 true [] [] [] [] true).metrics =
        some { precision := some 1, recallV := some 1, fmean := some 1 } :=
  ⟨(getVoxelsStats_identical_shapes twoB 0 128 twoB 0 128 true [] [] [] []
      (fun _ _ => Iff.rfl)).1,
    (getVoxelsStats_identical_shapes twoB 0 128 twoB 0 128 true [] [] [] []
      (fun _ _ => Iff.rfl)).2.1,
    by decide,
    (getVoxelsStats_identical_shapes twoB 0 128 twoB 0 128 true [] [] [] []
      (fun _ _ => Iff.rfl)).2.2 (by decide)⟩

/-- On an image over `bigBox`, a counter whose category holds every voxel has
left the `int` range. -/
theorem wrap32_card_bigBox (image : Image3D) (hd : image.domain = bigBox) (P : Point → Bool)
    (h : ∀ p, P p = true) : wrap32 (image.domain.card P) = -2147483648 := by
  rw [Domain.card_eq_size _ P (fun p _ => h p), hd, bigBox_size]
  exact wrap32_two_pow_31

theorem bigOnes_card_pointSet : (bigOnes.domain.pointSet.card : Int) = 2147483648 := by
  have hsz : bigOnes.domain.size = 2 ^ 31 := bigBox_size
  rw [Domain.card_pointSet, hsz]
  norm_num

/-- C11 (as amended): when no point of the domain is inside A's thresholds and
none inside B's, `numBinA = numBnotInA = numNotBinA = 0` and precision and
recall are both undefined; `numCompBinCompA` equals the number of points of the
domain when that number is below `2^31`. -/
theorem getVoxelsStats_empty_shapes (imageA : Image3D) (aMin aMax : Int)
    (imageB : Image3D) (bMin bMax : Int) (e : Bool) (v1 v2 v3 v4 : List Point)
    (hA : ∀ p ∈ imageA.domain.points, ¬ (aMin ≤ imageA.val p ∧ imageA.val p ≤ aMax))
    (hB : ∀ p ∈ imageA.domain.points, ¬ (bMin ≤ imageB.val p ∧ imageB.val p ≤ bMax)) :
    (getVoxelsStats imageA aMin aMax imageB bMin bMax e v1 v2 v3 v4 true).state.numBinA = 0 ∧
      (getVoxelsStats imageA aMin aMax imageB bMin bMax e v1 v2 v3 v4 true).state.numBnotInA = 0 ∧
      (getVoxelsStats imageA aMin aMax imageB bMin bMax e v1 v2 v3 v4 true).state.numNotBinA = 0 ∧
      ((getVoxelsStats imageA aMin aMax imageB bMin bMax e v1 v2 v3 v4 true).metrics.map
        Metrics.precision) = some none ∧
      ((getVoxelsStats imageA aMin aMax imageB bMin bMax e v1 v2 v3 v4 true).metrics.map
        Metrics.recallV) = some none ∧
      (imageA.domain.size < 2 ^ 31 →
        (getVoxelsStats imageA aMin aMax imageB bMin bMax e v1 v2 v3 v4
          true).state.numCompBinCompA = (imageA.domain.pointSet.card : Int)) := by
  have hsA : ∀ p ∈ imageA.domain.points, inShape imageA aMin aMax p = false := by
    intro p hp
    unfold inShape
    exact decide_eq_false (hA p hp)
  have hsB : ∀ p ∈ imageA.domain.points, inShape imageB bMin bMax p = false := by
    intro p hp
    unfold inShape
    exact decide_eq_false (hB p hp)
  have h1 : imageA.domain.card (catBinA imageA aMin aMax imageB bMin bMax) = 0 :=
    Domain.card_eq_zero _ _ (by intro p hp; simp [catBinA, hsA p hp])
  have h2 : imageA.domain.card (catBnotInA imageA aMin aMax imageB bMin bMax) = 0 :=
    Domain.card_eq_zero _ _ (by intro p hp; simp [catBnotInA, hsB p hp])
  have h3 : imageA.domain.card (catNotBinA imageA aMin aMax imageB bMin bMax) = 0 :=
    Domain.card_eq_zero _ _ (by intro p hp; simp [catNotBinA, hsA p hp])
  have h4 : imageA.domain.card (catCompBinCompA imageA aMin aMax imageB bMin bMax) =
      imageA.domain.size :=
    Domain.card_eq_size _ _ (by intro p hp; simp [catCompBinCompA, hsA p hp, hsB p hp])
  have hm := getVoxelsStats_metrics imageA aMin aMax imageB bMin bMax e v1 v2 v3 v4
  rw [hm, getVoxelsStats_state]
  simp only [h1, h2, h3, h4, Nat.cast_zero, wrap32_zero, metricsOf, add_zero,
    Option.map_some', ratio_zero_den, Domain.card_pointSet]
  refine ⟨trivial, trivial, trivial, trivial, trivial, ?_⟩
  intro hlt
  exact wrap32_natCast_of_lt _ hlt

/-- C11 (witness): the `2 × 2 × 2` grid of constant value 1 against itself
with both threshold windows `[0,0]`: `numCompBinCompA` is 8 and the other three
category counts are 0. -/
theorem getVoxelsStats_empty_shapes_witness :
    (getVoxelsStats cubeOnes 0 0 cubeOnes 0 0 false [] [] [] [] true).state.numBinA = 0 ∧
      (getVoxelsStats cubeOnes 0 0 cubeOnes 0 0 false [] [] [] [] true).state.numBnotInA = 0 ∧
      (getVoxelsStats cubeOnes 0 0 cubeOnes 0 0 false [] [] [] [] true).state.numNotBinA = 0 ∧
      ((getVoxelsStats cubeOnes 0 0 cubeOnes 0 0 false [] [] [] [] true).metrics.map
        Metrics.precision) = some none ∧
      ((getVoxelsStats cubeOnes 0 0 cubeOnes 0 0 false [] [] [] [] true).metrics.map
        Metrics.recallV) = some none ∧
      (getVoxelsStats cubeOnes 0 0 cubeOnes 0 0 false [] [] [] [] true).state.numCompBinCompA =
        (cubeOnes.domain.pointSet.card : Int) ∧
      (getVoxelsStats cubeOnes 0 0 cubeOnes 0 0 false [] [] [] [] true).state.numCompBinCompA =
        8 :=
  ⟨(getVoxelsStats_empty_shapes cubeOnes 0 0 cubeOnes 0 0 false [] [] [] []
      (by decide) (by decide)).1,
    (getVoxelsStats_empty_shapes cubeOnes 0 0 cubeOnes 0 0 false [] [] [] []
      (by decide) (by decide)).2.1,
    (getVoxelsStats_empty_shapes cubeOnes 0 0 cubeOnes 0 0 false [] [] [] []
      (by decide) (by decide)).2.2.1,
    (getVoxelsStats_empty_shapes cubeOnes 0 0 cubeOnes 0 0 false [] [] [] []
      (by decide) (by decide)).2.2.2.1,
    (getVoxelsStats_empty_shapes cubeOnes 0 0 cubeOnes 0 0 false [] [] [] []
      (by decide) (by decide)).2.2.2.2.1,
    (getVoxelsStats_empty_shapes cubeOnes 0 0 cubeOnes 0 0 false [] [] [] []
      (by decide) (by decide)).2.2.2.2.2 (by decide),
    by decide⟩

/-- C11 (counterexample): on a domain of `2^31` voxels of value 1 with both
threshold windows `[0,0]`, no voxel is in either shape and `numCompBinCompA` is
`-2^31`, not the `2^31` points of the domain. -/
theorem getVoxelsStats_empty_shapes_overflow_bigOnes :
    (∀ p ∈ bigOnes.domain.points, ¬ ((0 : Int) ≤ bigOnes.val p ∧ bigOnes.val p ≤ 0)) ∧
      (getVoxelsStats bigOnes 0 0 bigOnes 0 0 false [] [] [] [] true).state.numCompBinCompA =
        -2147483648 ∧
      (bigOnes.domain.pointSet.card : Int) = 2147483648 := by
  refine ⟨?_, ?_, bigOnes_card_pointSet⟩
  · intro p _
    simp [bigOnes]
  · rw [getVoxelsStats_state]
    exact wrap32_card_bigBox bigOnes rfl _ (by intro p; simp [catCompBinCompA, inShape, bigOnes])

theorem inShape_inverted (image : Image3D) (lo hi : Int) (h : hi < lo) (p : Point) :
    inShape image lo hi p = false := by
  unfold inShape
  exact decide_eq_false (by omega)

/-- C12 (as amended): an inverted interval is accepted and defines the empty
shape. For `aMin > aMax`, `numTotalInA = numBinA = numNotBinA = 0`, and
`numTotalinCompA` equals the number of points of the domain when that number is
below `2^31`; symmetrically for `bMin > bMax` with `numTotalInB`, `numBinA`,
`numBnotInA` and `numTotalinCompB`. -/
theorem getVoxelsStats_inverted_interval (imageA : Image3D) (aMin aMax : Int)
    (imageB : Image3D) (bMin bMax : Int) (e : Bool) (v1 v2 v3 v4 : List Point) (prf : Bool) :
    (aMax < aMin →
      (getVoxelsStats imageA aMin aMax imageB bMin bMax e v1 v2 v3 v4 prf).state.numTotalInA = 0 ∧
      (getVoxelsStats imageA aMin aMax imageB bMin bMax e v1 v2 v3 v4 prf).state.numBinA = 0 ∧
      (getVoxelsStats imageA aMin aMax imageB bMin bMax e v1 v2 v3 v4 prf).state.numNotBinA = 0 ∧
      (imageA.domain.size < 2 ^ 31 →
        (getVoxelsStats imageA aMin aMax imageB bMin bMax e v1 v2 v3 v4
          prf).state.numTotalinCompA = (imageA.domain.pointSet.card : Int))) ∧
    (bMax < bMin →
      (getVoxelsStats imageA aMin aMax imageB bMin bMax e v1 v2 v3 v4 prf).state.numTotalInB = 0 ∧
      (getVoxelsStats imageA aMin aMax imageB bMin bMax e v1 v2 v3 v4 prf).state.numBinA = 0 ∧
      (getVoxelsStats imageA aMin aMax imageB bMin bMax e v1 v2 v3 v4 prf).state.numBnotInA = 0 ∧
      (imageA.domain.size < 2 ^ 31 →
        (getVoxelsStats imageA aMin aMax imageB bMin bMax e v1 v2 v3 v4
          prf).state.numTotalinCompB = (imageA.domain.pointSet.card : Int))) := by
  rw [getVoxelsStats_state]
  simp only [Domain.card_pointSet]
  constructor
  · intro h
    have hs := inShape_inverted imageA aMin aMax h
    rw [Domain.card_eq_zero _ (inShape imageA aMin aMax) (fun p _ => hs p),
      Domain.card_eq_zero _ (catBinA imageA aMin aMax imageB bMin bMax)
        (by intro p _; simp [catBinA, hs p]),
      Domain.card_eq_zero _ (catNotBinA imageA aMin aMax imageB bMin bMax)
        (by intro p _; simp [catNotBinA, hs p]),
      Domain.card_eq_size _ (fun q => !inShape imageA aMin aMax q)
        (by intro p _; simp [hs p])]
    refine ⟨wrap32_zero, wrap32_zero, wrap32_zero, ?_⟩
    intro hlt
    exact wrap32_natCast_of_lt _ hlt
  · intro h
    have hs := inShape_inverted imageB bMin bMax h
    rw [Domain.card_eq_zero _ (inShape imageB bMin bMax) (fun p _ => hs p),
      Domain.card_eq_zero _ (catBinA imageA aMin aMax imageB bMin bMax)
        (by intro p _; simp [catBinA, hs p]),
      Domain.card_eq_zero _ (catBnotInA imageA aMin aMax imageB bMin bMax)
        (by intro p _; simp [catBnotInA, hs p]),
      Domain.card_eq_size _ (fun q => !inShape imageB bMin bMax q)
        (by intro p _; simp [hs p])]
    refine ⟨wrap32_zero, wrap32_zero, wrap32_zero, ?_⟩
    intro hlt
    exact wrap32_natCast_of_lt _ hlt

/-- C12 (witness): `twoA` against `twoB`, once with the interval of A inverted
(`aMin = 128`, `aMax = 0`) and once with that of B inverted. -/
theorem getVoxelsStats_inverted_interval_witness :
    ((getVoxelsStats twoA 128 0 twoB 0 128 true [] [] [] [] true).state.numTotalInA = 0 ∧
      (getVoxelsStats twoA 128 0 twoB 0 128 true [] [] [] [] true).state.numBinA = 0 ∧
      (getVoxelsStats twoA 128 0 twoB 0 128 true [] [] [] [] true).state.numNotBinA = 0 ∧
      (getVoxelsStats twoA 128 0 twoB 0 128 true [] [] [] [] true).state.numTotalinCompA =
        (twoA.domain.pointSet.card : Int)) ∧
    ((getVoxelsStats twoA 0 128 twoB 128 0 true [] [] [] [] true).state.numTotalInB = 0 ∧
      (getVoxelsStats twoA 0 128 twoB 128 0 true [] [] [] [] true).state.numBinA = 0 ∧
      (getVoxelsStats twoA 0 128 twoB 128 0 true [] [] [] [] true).state.numBnotInA = 0 ∧
      (getVoxelsStats twoA 0 128 twoB 128 0 true [] [] [] [] true).state.numTotalinCompB =
        (twoA.domain.pointSet.card : Int)) :=
  ⟨⟨((getVoxelsStats_inverted_interval twoA 128 0 twoB 0 128 true [] [] [] [] true).1
        (by decide)).1,
      ((getVoxelsStats_inverted_interval twoA 128 0 twoB 0 128 true [] [] [] [] true).1
        (by decide)).2.1,
      ((getVoxelsStats_inverted_interval twoA 128 0 twoB 0 128 true [] [] [] [] true).1
        (by decide)).2.2.1,
      ((getVoxelsStats_inverted_interval twoA 128 0 twoB 0 128 true [] [] [] [] true).1
        (by decide)).2.2.2 (by decide)⟩,
    ⟨((getVoxelsStats_inverted_interval twoA 0 128 twoB 128 0 true [] [] [] [] true).2
        (by decide)).1,
      ((getVoxelsStats_inverted_interval twoA 0 128 twoB 128 0 true [] [] [] [] true).2
        (by decide)).2.1,
      ((getVoxelsStats_inverted_interval twoA 0 128 twoB 128 0 true [] [] [] [] true).2
        (by decide)).2.2.1,
      ((getVoxelsStats_inverted_interval twoA 0 128 twoB 128 0 true [] [] [] [] true).2
        (by decide)).2.2.2 (by decide)⟩⟩

/-- C12 (counterexample): on a domain of `2^31` voxels with the inverted
interval `aMin = 1 > aMax = 0`, `numTotalinCompA` is `-2^31`, not the `2^31`
points of the domain. -/
theorem getVoxelsStats_inverted_interval_overflow_bigOnes :
    (getVoxelsStats bigOnes 1 0 bigOnes 1 1 false [] [] [] [] false).state.numTotalinCompA =
        -2147483648 ∧
      (bigOnes.domain.pointSet.card : Int) = 2147483648 := by
  refine ⟨?_, bigOnes_card_pointSet⟩
  rw [getVoxelsStats_state]
  exact wrap32_card_bigBox bigOnes rfl _
    (by intro p; simp [inShape_inverted bigOnes 1 0 (by decide) p])

/-! ## The output vectors -/

theorem length_filter_eq_card (D : Domain) (P : Point → Bool) :
    (D.points.filter P).length = D.card P := by
  rw [D.card_eq_countP, List.countP_eq_length_filter]

/-- C13 (as amended): for any initial contents of the four output vectors,
after `getVoxelsStats` with `exportStatVoxels = true` each vector is its initial
contents followed by the domain points of its category in domain iteration
order; with `exportStatVoxels = false` each vector is unchanged; and when the
domain has fewer than `2^31` points the number of appended points equals the
category count. -/
theorem getVoxelsStats_vectors (imageA : Image3D) (aMin aMax : Int) (imageB : Image3D)
    (bMin bMax : Int) (v1 v2 v3 v4 : List Point) (prf : Bool) :
    ((getVoxelsStats imageA aMin aMax imageB bMin bMax true v1 v2 v3 v4 prf).state.vectPtBinA =
        v1 ++ imageA.domain.points.filter (catBinA imageA aMin aMax imageB bMin bMax) ∧
      (getVoxelsStats imageA aMin aMax imageB bMin bMax true v1 v2 v3 v4
          prf).state.vectPtCompBinCompA =
        v2 ++ imageA.domain.points.filter (catCompBinCompA imageA aMin aMax imageB bMin bMax) ∧
      (getVoxelsStats imageA aMin aMax imageB bMin bMax true v1 v2 v3 v4 prf).state.vectPtBnotInA =
        v3 ++ imageA.domain.points.filter (catBnotInA imageA aMin aMax imageB bMin bMax) ∧
      (getVoxelsStats imageA aMin aMax imageB bMin bMax true v1 v2 v3 v4 prf).state.vectPtnotBInA =
        v4 ++ imageA.domain.points.filter (catNotBinA imageA aMin aMax imageB bMin bMax)) ∧
    ((getVoxelsStats imageA aMin aMax imageB bMin bMax false v1 v2 v3 v4 prf).state.vectPtBinA =
        v1 ∧
      (getVoxelsStats imageA aMin aMax imageB bMin bMax false v1 v2 v3 v4
          prf).state.vectPtCompBinCompA = v2 ∧
      (getVoxelsStats imageA aMin aMax imageB bMin bMax false v1 v2 v3 v4
          prf).state.vectPtBnotInA = v3 ∧
      (getVoxelsStats imageA aMin aMax imageB bMin bMax false v1 v2 v3 v4
          prf).state.vectPtnotBInA = v4) ∧
    (imageA.domain.size < 2 ^ 31 →
      ((imageA.domain.points.filter (catBinA imageA aMin aMax imageB bMin bMax)).length : Int) =
          (getVoxelsStats imageA aMin aMax imageB bMin bMax true v1 v2 v3 v4 prf).state.numBinA ∧
        ((imageA.domain.points.filter
            (catCompBinCompA imageA aMin aMax imageB bMin bMax)).length : Int) =
          (getVoxelsStats imageA aMin aMax imageB bMin bMax true v1 v2 v3 v4
            prf).state.numCompBinCompA ∧
        ((imageA.domain.points.filter
            (catBnotInA imageA aMin aMax imageB bMin bMax)).length : Int) =
          (getVoxelsStats imageA aMin aMax imageB bMin bMax true v1 v2 v3 v4
            prf).state.numBnotInA ∧
        ((imageA.domain.points.filter
            (catNotBinA imageA aMin aMax imageB bMin bMax)).length : Int) =
          (getVoxelsStats imageA aMin aMax imageB bMin bMax true v1 v2 v3 v4
            prf).state.numNotBinA) := by
  rw [getVoxelsStats_state, getVoxelsStats_state]
  refine ⟨⟨rfl, rfl, rfl, rfl⟩, ?_, ?_⟩
  · simp [collected]
  · intro h
    simp only [length_filter_eq_card, wrap32_card _ _ h]
    exact ⟨trivial, trivial, trivial, trivial⟩

/-- C13 (witness): `twoA` against `twoB` with non-empty initial vectors. -/
theorem getVoxelsStats_vectors_witness :
    (getVoxelsStats twoA 0 128 twoB 0 128 true [⟨7, 7, 7⟩] [] [⟨9, 9, 9⟩] []
        false).state.vectPtBinA = [⟨7, 7, 7⟩, ⟨0, 0, 0⟩] ∧
      (getVoxelsStats twoA 0 128 twoB 0 128 true [⟨7, 7, 7⟩] [] [⟨9, 9, 9⟩] []
        false).state.vectPtBnotInA = [⟨9, 9, 9⟩, ⟨1, 0, 0⟩] ∧
      ((twoA.domain.points.filter (catBinA twoA 0 128 twoB 0 128)).length : Int) =
          (getVoxelsStats twoA 0 128 twoB 0 128 true [⟨7, 7, 7⟩] [] [⟨9, 9, 9⟩] []
            false).state.numBinA ∧
      ((twoA.domain.points.filter (catBnotInA twoA 0 128 twoB 0 128)).length : Int) =
          (getVoxelsStats twoA 0 128 twoB 0 128 true [⟨7, 7, 7⟩] [] [⟨9, 9, 9⟩] []
            false).state.numBnotInA :=
  ⟨(getVoxelsStats_vectors twoA 0 128 twoB 0 128 [⟨7, 7, 7⟩] [] [⟨9, 9, 9⟩] [] false).1.1,
    (getVoxelsStats_vectors twoA 0 128 twoB 0 128 [⟨7, 7, 7⟩] [] [⟨9, 9, 9⟩] [] false).1.2.2.1,
    ((getVoxelsStats_vectors twoA 0 128 twoB 0 128 [⟨7, 7, 7⟩] [] [⟨9, 9, 9⟩] [] false).2.2
      (by decide)).1,
    ((getVoxelsStats_vectors twoA 0 128 twoB 0 128 [⟨7, 7, 7⟩] [] [⟨9, 9, 9⟩] [] false).2.2
      (by decide)).2.2.1⟩

/-- C13 (counterexample): on a domain of `2^31` voxels, all of them in both
shapes, `2^31` points are appended to `vectPtBinA` while the count `numBinA` is
`-2^31`. -/
theorem getVoxelsStats_vector_length_ne_count_bigOnes :
    ((getVoxelsStats bigOnes 1 1 bigOnes 1 1 true [] [] [] [] false).state.vectPtBinA.length
        : Int) = 2147483648 ∧
      (getVoxelsStats bigOnes 1 1 bigOnes 1 1 true [] [] [] [] false).state.numBinA =
        -2147483648 := by
  have hc : ∀ p, catBinA bigOnes 1 1 bigOnes 1 1 p = true := by
    intro p; simp [catBinA, inShape, bigOnes]
  have hsz : bigOnes.domain.size = 2 ^ 31 := bigBox_size
  rw [getVoxelsStats_state]
  refine ⟨?_, wrap32_card_bigBox bigOnes rfl _ hc⟩
  simp only [collected, if_true, List.nil_append, length_filter_eq_card]
  rw [Domain.card_eq_size _ _ (fun p _ => hc p), hsz]
  norm_num

/-! ## Range of the counters -/

/-- C16 (as amended): for every domain with fewer than `2^31` points, each of
the eight counts produced by `getVoxelsStats` is a non-negative integer. -/
theorem getVoxelsStats_counts_nonneg (imageA : Image3D) (aMin aMax : Int) (imageB : Image3D)
    (bMin bMax : Int) (e : Bool) (v1 v2 v3 v4 : List Point) (prf : Bool)
    (h : imageA.domain.size < 2 ^ 31) :
    0 ≤ (getVoxelsStats imageA aMin aMax imageB bMin bMax e v1 v2 v3 v4 prf).state.numBinA ∧
      0 ≤ (getVoxelsStats imageA aMin aMax imageB bMin bMax e v1 v2 v3 v4
        prf).state.numCompBinCompA ∧
      0 ≤ (getVoxelsStats imageA aMin aMax imageB bMin bMax e v1 v2 v3 v4 prf).state.numBnotInA ∧
      0 ≤ (getVoxelsStats imageA aMin aMax imageB bMin bMax e v1 v2 v3 v4 prf).state.numNotBinA ∧
      0 ≤ (getVoxelsStats imageA aMin aMax imageB bMin bMax e v1 v2 v3 v4 prf).state.numTotalInA ∧
      0 ≤ (getVoxelsStats imageA aMin aMax imageB bMin bMax e v1 v2 v3 v4 prf).state.numTotalInB ∧
      0 ≤ (getVoxelsStats imageA aMin aMax imageB bMin bMax e v1 v2 v3 v4
        prf).state.numTotalinCompA ∧
      0 ≤ (getVoxelsStats imageA aMin aMax imageB bMin bMax e v1 v2 v3 v4
        prf).state.numTotalinCompB := by
  rw [getVoxelsStats_state]
  simp only [wrap32_card _ _ h]
  refine ⟨?_, ?_, ?_, ?_, ?_, ?_, ?_, ?_⟩ <;> exact Int.natCast_nonneg _

/-- C16 (witness): `twoA` against `twoB` under the default thresholds. -/
theorem getVoxelsStats_counts_nonneg_witness :
    0 ≤ (getVoxelsStats twoA 0 128 twoB 0 128 true [] [] [] [] true).state.numBinA ∧
      0 ≤ (getVoxelsStats twoA 0 128 twoB 0 128 true [] [] [] [] true).state.numCompBinCompA ∧
      0 ≤ (getVoxelsStats twoA 0 128 twoB 0 128 true [] [] [] [] true).state.numBnotInA ∧
      0 ≤ (getVoxelsStats twoA 0 128 twoB 0 128 true [] [] [] [] true).state.numNotBinA ∧
      0 ≤ (getVoxelsStats twoA 0 128 twoB 0 128 true [] [] [] [] true).state.numTotalInA ∧
      0 ≤ (getVoxelsStats twoA 0 128 twoB 0 128 true [] [] [] [] true).state.numTotalInB ∧
      0 ≤ (getVoxelsStats twoA 0 128 twoB 0 128 true [] [] [] [] true).state.numTotalinCompA ∧
      0 ≤ (getVoxelsStats twoA 0 128 twoB 0 128 true [] [] [] [] true).state.numTotalinCompB :=
  getVoxelsStats_counts_nonneg twoA 0 128 twoB 0 128 true [] [] [] [] true (by decide)

/-- C16 (counterexample): on a domain of `2^31` voxels, all of them in both
shapes, the count `numTotalInB` is `-2^31`, a negative integer. -/
theorem getVoxelsStats_numTotalInB_negative_bigOnes :
    (getVoxelsStats bigOnes 1 1 bigOnes 1 1 false [] [] [] [] false).state.numTotalInB =
        -2147483648 ∧
      (getVoxelsStats bigOnes 1 1 bigOnes 1 1 false [] [] [] [] false).state.numTotalInB < 0 ∧
      2 ^ 31 - 1 < bigOnes.domain.size := by
  have hsz : bigOnes.domain.size = 2 ^ 31 := bigBox_size
  rw [bigOnes_state, hsz]
  norm_num

/-! ## The counts-only overload -/

/-- C18: the counts-only overload of `getVoxelsStats` yields the same eight
counts and the same metrics (printed or not, as requested) as the
point-collecting variant called with `exportStatVoxels = true` on the same
images and thresholds, whatever the vectors passed to the latter. -/
theorem getVoxelsStatsCounts_eq (imageA : Image3D) (aMin aMax : Int) (imageB : Image3D)
    (bMin bMax : Int) (v1 v2 v3 v4 : List Point) (prf : Bool) :
    (getVoxelsStatsCounts imageA aMin aMax imageB bMin bMax prf).state.numBinA =
        (getVoxelsStats imageA aMin aMax imageB bMin bMax true v1 v2 v3 v4 prf).state.numBinA ∧
      (getVoxelsStatsCounts imageA aMin aMax imageB bMin bMax prf).state.numCompBinCompA =
        (getVoxelsStats imageA aMin aMax imageB bMin bMax true v1 v2 v3 v4
          prf).state.numCompBinCompA ∧
      (getVoxelsStatsCounts imageA aMin aMax imageB bMin bMax prf).state.numBnotInA =
        (getVoxelsStats imageA aMin aMax imageB bMin bMax true v1 v2 v3 v4 prf).state.numBnotInA ∧
      (getVoxelsStatsCounts imageA aMin aMax imageB bMin bMax prf).state.numNotBinA =
        (getVoxelsStats imageA aMin aMax imageB bMin bMax true v1 v2 v3 v4 prf).state.numNotBinA ∧
      (getVoxelsStatsCounts imageA aMin aMax imageB bMin bMax prf).state.numTotalInA =
        (getVoxelsStats imageA aMin aMax imageB bMin bMax true v1 v2 v3 v4
          prf).state.numTotalInA ∧
      (getVoxelsStatsCounts imageA aMin aMax imageB bMin bMax prf).state.numTotalInB =
        (getVoxelsStats imageA aMin aMax imageB bMin bMax true v1 v2 v3 v4
          prf).state.numTotalInB ∧
      (getVoxelsStatsCounts imageA aMin aMax imageB bMin bMax prf).state.numTotalinCompA =
        (getVoxelsStats imageA aMin aMax imageB bMin bMax true v1 v2 v3 v4
          prf).state.numTotalinCompA ∧
      (getVoxelsStatsCounts imageA aMin aMax imageB bMin bMax prf).state.numTotalinCompB =
        (getVoxelsStats imageA aMin aMax imageB bMin bMax true v1 v2 v3 v4
          prf).state.numTotalinCompB ∧
      (getVoxelsStatsCounts imageA aMin aMax imageB bMin bMax prf).metrics =
        (getVoxelsStats imageA aMin aMax imageB bMin bMax true v1 v2 v3 v4 prf).metrics := by
  have hs := getVoxelsStats_state imageA aMin aMax imageB bMin bMax true v1 v2 v3 v4 prf
  have hc := getVoxelsStats_state imageA aMin aMax imageB bMin bMax false [] [] [] [] prf
  have hm : ∀ (e : Bool) (w1 w2 w3 w4 : List Point),
      (getVoxelsStats imageA aMin aMax imageB bMin bMax e w1 w2 w3 w4 prf).metrics =
        if prf then
          some (metricsOf
            (getVoxelsStats imageA aMin aMax imageB bMin bMax e w1 w2 w3 w4 prf).state)
        else none := fun _ _ _ _ _ => rfl
  unfold getVoxelsStatsCounts
  rw [hm false, hm true, hs, hc]
  refine ⟨rfl, rfl, rfl, rfl, rfl, rfl, rfl, rfl, ?_⟩
  cases prf
  · rfl
  · simp only [if_true, metricsOf]

/-! ## First-seen maximum -/

/-- The point tracked by the loop, with ties: either no visited point exceeded
the entry value of `maxDist`, or the visit splits at the recorded point, every
earlier point being strictly closer and no later point farther. -/
theorem addLoop_first (dt : Point → ℚ) (l : List Point) (s : DistanceState) (p0 : Point)
    (h0 : s.ptMax = some p0) :
    ((l.foldl (addStep dt) s).ptMax = some p0 ∧ ∀ p ∈ l, dt p ≤ s.maxDist) ∨
      ∃ pre q post, l = pre ++ q :: post ∧ (l.foldl (addStep dt) s).ptMax = some q ∧
        s.maxDist < dt q ∧ (∀ p ∈ pre, dt p < dt q) ∧ ∀ p ∈ post, dt p ≤ dt q := by
  induction l generalizing s p0 with
  | nil => left; simp [h0]
  | cons a l ih =>
    rw [List.foldl_cons]
    by_cases ha : s.maxDist < dt a
    · have hs : (addStep dt s a).ptMax = some a := by
        simp [addStep, ha, h0, storePoint_some]
      have hm : (addStep dt s a).maxDist = dt a := by simp [addStep, ha]
      rcases ih (addStep dt s a) a hs with ⟨h1, h2⟩ | ⟨pre, q, post, hl, h1, h2, h3, h4⟩
      · right
        refine ⟨[], a, l, rfl, h1, ha, ?_, ?_⟩
        · intro p hp
          exact absurd hp (List.not_mem_nil p)
        · intro p hp
          rw [← hm]
          exact h2 p hp
      · right
        rw [hm] at h2
        refine ⟨a :: pre, q, post, by rw [hl]; rfl, h1, lt_trans ha h2, ?_, h4⟩
        intro p hp
        rcases List.mem_cons.mp hp with rfl | hp
        · exact h2
        · exact h3 p hp
    · have hs : (addStep dt s a).ptMax = some p0 := by simp [addStep, ha, h0]
      have hm : (addStep dt s a).maxDist = s.maxDist := by simp [addStep, ha]
      rcases ih (addStep dt s a) p0 hs with ⟨h1, h2⟩ | ⟨pre, q, post, hl, h1, h2, h3, h4⟩
      · left
        refine ⟨h1, ?_⟩
        intro p hp
        rcases List.mem_cons.mp hp with rfl | hp
        · exact not_lt.mp ha
        · rw [← hm]
          exact h2 p hp
      · right
        rw [hm] at h2
        refine ⟨a :: pre, q, post, by rw [hl]; rfl, h1, h2, ?_, h4⟩
        intro p hp
        rcases List.mem_cons.mp hp with rfl | hp
        · exact lt_of_le_of_lt (not_lt.mp ha) h2
        · exact h3 p hp

/-- C17: for every selection in which some point has a strictly positive
distance, the point left in a non-null `ptMax` by `getStatsFromDistanceMap` is
the first point, in the order of the visit, whose distance is the largest of the
selection: every selected point visited before it is strictly closer and no
selected point visited after it is farther. -/
theorem getStatsFromDistanceMap_ptMax_first (env : DGtalEnv) (stats : Statistic)
    (imageA : Image3D) (aMin aMax : Int) (imageB : Image3D) (bMin bMax : Int) (fp : Bool)
    (p0 : Point)
    (h : ∃ p ∈ selectedPoints env imageA aMin aMax imageB bMin bMax fp,
      0 < dtL2 env imageA aMin aMax p) :
    ∃ pre q post,
      selectedPoints env imageA aMin aMax imageB bMin bMax fp = pre ++ q :: post ∧
        (getStatsFromDistanceMap env stats imageA aMin aMax imageB bMin bMax fp (some p0)).ptMax =
          some q ∧
        (∀ p ∈ pre, dtL2 env imageA aMin aMax p < dtL2 env imageA aMin aMax q) ∧
        ∀ p ∈ post, dtL2 env imageA aMin aMax p ≤ dtL2 env imageA aMin aMax q := by
  obtain ⟨p, hp, hpos⟩ := h
  have hloop := addLoop_first (dtL2 env imageA aMin aMax)
    (selectedPoints env imageA aMin aMax imageB bMin bMax fp)
    { stats := stats, nbAdded := 0, maxDist := 0, ptMax := some p0 } p0 rfl
  unfold getStatsFromDistanceMap
  simp only [distanceLoop_eq]
  rcases hloop with ⟨_, h2⟩ | ⟨pre, q, post, hl, h1, _, h3, h4⟩
  · exact absurd (h2 p hp) (not_le.mpr hpos)
  · exact ⟨pre, q, post, hl, h1, h3, h4⟩

/-- C17 (witness): `threeMid` against `threeOnes`: the voxels `(0,0,0)` and
`(2,0,0)` of B both lie at distance 1 from the shape of A, and `ptMax` holds
`(0,0,0)`, the one visited first. -/
theorem getStatsFromDistanceMap_ptMax_first_witness :
    (∃ pre q post,
      selectedPoints unitEnv threeMid 0 128 threeOnes 0 128 false = pre ++ q :: post ∧
        (getStatsFromDistanceMap unitEnv { samples := [] } threeMid 0 128 threeOnes 0 128 false
          (some ⟨9, 9, 9⟩)).ptMax = some q ∧
        (∀ p ∈ pre, dtL2 unitEnv threeMid 0 128 p < dtL2 unitEnv threeMid 0 128 q) ∧
        ∀ p ∈ post, dtL2 unitEnv threeMid 0 128 p ≤ dtL2 unitEnv threeMid 0 128 q) ∧
      selectedPoints unitEnv threeMid 0 128 threeOnes 0 128 false =
        [⟨0, 0, 0⟩, ⟨1, 0, 0⟩, ⟨2, 0, 0⟩] ∧
      dtL2 unitEnv threeMid 0 128 ⟨0, 0, 0⟩ = dtL2 unitEnv threeMid 0 128 ⟨2, 0, 0⟩ ∧
      (getStatsFromDistanceMap unitEnv { samples := [] } threeMid 0 128 threeOnes 0 128 false
        (some ⟨9, 9, 9⟩)).ptMax = some ⟨0, 0, 0⟩ :=
  ⟨getStatsFromDistanceMap_ptMax_first unitEnv { samples := [] } threeMid 0 128 threeOnes 0 128
      false ⟨9, 9, 9⟩ ⟨⟨0, 0, 0⟩, by decide, by decide⟩,
    by decide, by decide, by decide⟩

/-! ## The sets built for the distance map -/

theorem nodup_setFromImage (env : DGtalEnv) (image : Image3D) (minVal maxVal : Int) :
    (setFromImage env image minVal maxVal).Nodup := by
  unfold setFromImage
  exact (env.iterationOrder_perm _).nodup_iff.mpr (image.domain.nodup_points.filter _)

theorem mem_setFromImage (env : DGtalEnv) (image : Image3D) (minVal maxVal : Int) (p : Point) :
    p ∈ setFromImage env image minVal maxVal ↔
      p ∈ image.domain.points ∧ (minVal < image.val p ∧ image.val p ≤ maxVal) := by
  unfold setFromImage
  rw [(env.iterationOrder_perm _).mem_iff, List.mem_filter]
  simp

theorem length_setFromImage (env : DGtalEnv) (image : Image3D) (minVal maxVal : Int) :
    (setFromImage env image minVal maxVal).length =
      image.domain.points.countP fun p => minVal < image.val p ∧ image.val p ≤ maxVal := by
  unfold setFromImage
  rw [(env.iterationOrder_perm _).length_eq, List.countP_eq_length_filter]

theorem selectedPoints_false (env : DGtalEnv) (imageA : Image3D) (aMin aMax : Int)
    (imageB : Image3D) (bMin bMax : Int) :
    selectedPoints env imageA aMin aMax imageB bMin bMax false = set3dComp env imageB bMin bMax := by
  unfold selectedPoints
  simp

/-- For a threshold in the `int` range, the widened lower bound `bMin - 1`
still excludes every value below `bMin`. -/
theorem widened_lower (bMin v : Int) (hb : -2 ^ 31 ≤ bMin ∧ bMin < 2 ^ 31)
    (h : wrap32 (bMin - 1) < v) : bMin ≤ v := by
  unfold wrap32 at h
  omega

/-- For a threshold in the `int` range above its minimum, the widened
half-open interval is the inclusive one. -/
theorem widened_iff (bMin bMax v : Int) (hb : -2 ^ 31 < bMin ∧ bMin < 2 ^ 31) :
    (wrap32 (bMin - 1) < v ∧ v ≤ bMax) ↔ (bMin ≤ v ∧ v ≤ bMax) := by
  unfold wrap32
  omega

theorem isDiff_of_inB (imageA : Image3D) (aMin aMax : Int) (imageB : Image3D) (bMin bMax : Int)
    (p : Point) (h : bMin ≤ imageB.val p ∧ imageB.val p ≤ bMax) :
    isDiff imageA aMin aMax imageB bMin bMax p = !inShape imageA aMin aMax p := by
  unfold isDiff inShape
  have h1 : decide (imageB.val p ≤ bMax) = true := decide_eq_true h.2
  have h2 : decide (imageB.val p ≥ bMin) = true := decide_eq_true h.1
  by_cases hA : aMin ≤ imageA.val p ∧ imageA.val p ≤ aMax
  · have h3 : decide (imageA.val p ≤ aMax) = true := decide_eq_true hA.2
    have h4 : decide (imageA.val p ≥ aMin) = true := decide_eq_true hA.1
    simp [h1, h2, h3, h4, hA]
  · have h5 : (decide (imageA.val p ≤ aMax) && decide (imageA.val p ≥ aMin)) = false := by
      simp only [Bool.and_eq_false_iff, decide_eq_false_iff_not]
      by_contra hc
      push_neg at hc
      exact hA ⟨hc.2, hc.1⟩
    simp [h1, h2, h5, hA]

/-- For `bMin` in the `int` range, in terms of the comparison set: for every
point inside B's inclusive thresholds `isDiff` holds iff the point is outside
A's inclusive thresholds; with `statOnFalsePositiveOnly = true` the points whose
distance is added are the points of the comparison set outside A's inclusive
thresholds, with `false` they are all the points of the comparison set; the
selection has no repetition and the values added are the distances of its
points, one per point. -/
theorem getStatsFromDistanceMap_selection (env : DGtalEnv) (stats : Statistic)
    (imageA : Image3D) (aMin aMax : Int) (imageB : Image3D) (bMin bMax : Int)
    (ptMax : Option Point) (hb : -2 ^ 31 ≤ bMin ∧ bMin < 2 ^ 31) :
    (∀ p, (bMin ≤ imageB.val p ∧ imageB.val p ≤ bMax) →
        (isDiff imageA aMin aMax imageB bMin bMax p = true ↔
          ¬ (aMin ≤ imageA.val p ∧ imageA.val p ≤ aMax))) ∧
      selectedPoints env imageA aMin aMax imageB bMin bMax true =
        (set3dComp env imageB bMin bMax).filter
          (fun p => decide (¬ (aMin ≤ imageA.val p ∧ imageA.val p ≤ aMax))) ∧
      selectedPoints env imageA aMin aMax imageB bMin bMax false =
        set3dComp env imageB bMin bMax ∧
      (∀ fp, (selectedPoints env imageA aMin aMax imageB bMin bMax fp).Nodup) ∧
      ∀ fp,
        (getStatsFromDistanceMap env stats imageA aMin aMax imageB bMin bMax fp
            ptMax).stats.samples =
          stats.samples ++
            (selectedPoints env imageA aMin aMax imageB bMin bMax fp).map
              (dtL2 env imageA aMin aMax) := by
  refine ⟨?_, ?_, selectedPoints_false env imageA aMin aMax imageB bMin bMax, ?_, ?_⟩
  · intro p hp
    rw [isDiff_of_inB imageA aMin aMax imageB bMin bMax p hp]
    simp only [inShape, Bool.not_eq_true', decide_eq_false_iff_not]
  · unfold selectedPoints
    apply List.filter_congr
    intro p hp
    have hmem := (mem_setFromImage env imageB (wrap32 (bMin - 1)) bMax p).mp hp
    have hin : bMin ≤ imageB.val p ∧ imageB.val p ≤ bMax :=
      ⟨widened_lower bMin _ hb hmem.2.1, hmem.2.2⟩
    rw [isDiff_of_inB imageA aMin aMax imageB bMin bMax p hin]
    simp only [inShape, decide_not, Bool.not_true, Bool.false_or]
  · intro fp
    unfold selectedPoints
    exact (nodup_setFromImage env imageB _ _).filter _
  · intro fp
    exact getStatsFromDistanceMap_samples env stats imageA aMin aMax imageB bMin bMax fp ptMax

/-- C15 (as amended): with the set builder selecting `lo < value ≤ hi` and
`aMin`, `bMin` in the `int` range above its minimum, the reference set is
`{p | aMin ≤ A(p) ≤ aMax}` and the comparison set is `{p | bMin ≤ B(p) ≤ bMax}`,
each without repetition; and when both images have the same domain, of fewer
than `2^31` points, the number of values added to the statistic in unrestricted
mode equals the classifier's `numTotalInB`. -/
theorem set3d_eq_inclusive_shapes (env : DGtalEnv) (stats : Statistic) (imageA : Image3D)
    (aMin aMax : Int) (imageB : Image3D) (bMin bMax : Int) (ptMax : Option Point) (e : Bool)
    (v1 v2 v3 v4 : List Point) (prf : Bool)
    (ha : -2 ^ 31 < aMin ∧ aMin < 2 ^ 31) (hb : -2 ^ 31 < bMin ∧ bMin < 2 ^ 31) :
    ((∀ p, p ∈ set3dRef env imageA aMin aMax ↔
        p ∈ imageA.domain.points ∧ (aMin ≤ imageA.val p ∧ imageA.val p ≤ aMax)) ∧
      (set3dRef env imageA aMin aMax).Nodup) ∧
    ((∀ p, p ∈ set3dComp env imageB bMin bMax ↔
        p ∈ imageB.domain.points ∧ (bMin ≤ imageB.val p ∧ imageB.val p ≤ bMax)) ∧
      (set3dComp env imageB bMin bMax).Nodup) ∧
    (imageB.domain = imageA.domain → imageA.domain.size < 2 ^ 31 →
      ((getStatsFromDistanceMap env stats imageA aMin aMax imageB bMin bMax false
          ptMax).stats.samples.length : Int) =
        (stats.samples.length : Int) +
          (getVoxelsStats imageA aMin aMax imageB bMin bMax e v1 v2 v3 v4
            prf).state.numTotalInB) := by
  refine ⟨⟨?_, nodup_setFromImage env imageA _ _⟩, ⟨?_, nodup_setFromImage env imageB _ _⟩, ?_⟩
  · intro p
    unfold set3dRef
    rw [mem_setFromImage, widened_iff aMin aMax _ ha]
  · intro p
    unfold set3dComp
    rw [mem_setFromImage, widened_iff bMin bMax _ hb]
  · intro hdom hlt
    rw [getStatsFromDistanceMap_samples, getVoxelsStats_state, selectedPoints_false,
      List.length_append, List.length_map]
    simp only [wrap32_card _ _ hlt]
    unfold set3dComp
    rw [length_setFromImage, hdom, Domain.card_eq_countP]
    push_cast
    congr 2
    apply List.countP_congr
    intro p _
    simp only [inShape, decide_eq_true_eq]
    exact widened_iff bMin bMax _ hb

/-- C15 (witness): `twoA` against `twoB` under the default thresholds. -/
theorem set3d_eq_inclusive_shapes_witness :
    ((∀ p, p ∈ set3dRef unitEnv twoA 0 128 ↔
        p ∈ twoA.domain.points ∧ ((0 : Int) ≤ twoA.val p ∧ twoA.val p ≤ 128)) ∧
      (set3dRef unitEnv twoA 0 128).Nodup) ∧
    ((∀ p, p ∈ set3dComp unitEnv twoB 0 128 ↔
        p ∈ twoB.domain.points ∧ ((0 : Int) ≤ twoB.val p ∧ twoB.val p ≤ 128)) ∧
      (set3dComp unitEnv twoB 0 128).Nodup) ∧
    ((getStatsFromDistanceMap unitEnv { samples := [] } twoA 0 128 twoB 0 128 false
        (some Point.origin)).stats.samples.length : Int) =
      ((([] : List ℚ).length : Nat) : Int) +
        (getVoxelsStats twoA 0 128 twoB 0 128 true [] [] [] [] true).state.numTotalInB :=
  ⟨(set3d_eq_inclusive_shapes unitEnv { samples := [] } twoA 0 128 twoB 0 128
      (some Point.origin) true [] [] [] [] true (by decide) (by decide)).1,
    (set3d_eq_inclusive_shapes unitEnv { samples := [] } twoA 0 128 twoB 0 128
      (some Point.origin) true [] [] [] [] true (by decide) (by decide)).2.1,
    (set3d_eq_inclusive_shapes unitEnv { samples := [] } twoA 0 128 twoB 0 128
      (some Point.origin) true [] [] [] [] true (by decide) (by decide)).2.2 rfl (by decide)⟩

/-- C15 (counterexample): on a domain of `2^31` voxels, all of them in the
shape of B, with thresholds `[1,1]` well inside the `int` range, `2^31` values
are added to the statistic in unrestricted mode while the classifier's
`numTotalInB` is `-2^31`. -/
theorem getStatsFromDistanceMap_added_ne_numTotalInB_bigOnes :
    ((getStatsFromDistanceMap unitEnv { samples := [] } bigOnes 1 1 bigOnes 1 1 false
        (some Point.origin)).stats.samples.length : Int) = 2147483648 ∧
      (getVoxelsStats bigOnes 1 1 bigOnes 1 1 false [] [] [] [] false).state.numTotalInB =
        -2147483648 := by
  have hsz : bigOnes.domain.size = 2 ^ 31 := bigBox_size
  have hl : (set3dComp unitEnv bigOnes 1 1).length = 2 ^ 31 := by
    unfold set3dComp
    rw [length_setFromImage, List.countP_eq_length.mpr, Domain.length_points, hsz]
    intro p _
    simp [bigOnes, wrap32]
  refine ⟨?_, ?_⟩
  · rw [getStatsFromDistanceMap_samples, selectedPoints_false, List.length_append,
      List.length_map, hl]
    simp
  · rw [bigOnes_state]

/-! ## The F-measure -/

theorem fMean_ratio (a b c : Int) (ha : 0 < a) (hb : 0 ≤ b) (hc : 0 ≤ c) :
    fMean (ratio a (a + b)) (ratio a (a + c)) =
      some ((2 * (a : ℚ)) / (2 * (a : ℚ) + (b : ℚ) + (c : ℚ))) := by
  have h1 : a + b ≠ 0 := by omega
  have h2 : a + c ≠ 0 := by omega
  have ha' : (0 : ℚ) < (a : ℚ) := by exact_mod_cast ha
  have hb' : (0 : ℚ) ≤ (b : ℚ) := by exact_mod_cast hb
  have hc' : (0 : ℚ) ≤ (c : ℚ) := by exact_mod_cast hc
  have hab : (0 : ℚ) < (a : ℚ) + (b : ℚ) := by linarith
  have hac : (0 : ℚ) < (a : ℚ) + (c : ℚ) := by linarith
  have hsum : (a : ℚ) / ((a : ℚ) + (b : ℚ)) + (a : ℚ) / ((a : ℚ) + (c : ℚ)) ≠ 0 := by
    have hp : 0 < (a : ℚ) / ((a : ℚ) + (b : ℚ)) := div_pos ha' hab
    have hr : 0 < (a : ℚ) / ((a : ℚ) + (c : ℚ)) := div_pos ha' hac
    linarith
  simp only [ratio, h1, h2, if_false, fMean]
  push_cast
  rw [if_neg hsum]
  congr 1
  have h3 : 2 * (a : ℚ) + (b : ℚ) + (c : ℚ) ≠ 0 := by
    have : 0 < 2 * (a : ℚ) + (b : ℚ) + (c : ℚ) := by linarith
    exact ne_of_gt this
  field_simp
  ring

theorem fMean_zero_num (d1 d2 : Int) : fMean (ratio 0 d1) (ratio 0 d2) = none := by
  by_cases h1 : d1 = 0 <;> by_cases h2 : d2 = 0 <;> simp [ratio, fMean, h1, h2]

theorem getVoxelsStats_state_prf (imageA : Image3D) (aMin aMax : Int) (imageB : Image3D)
    (bMin bMax : Int) (e : Bool) (v1 v2 v3 v4 : List Point) (prf prf' : Bool) :
    (getVoxelsStats imageA aMin aMax imageB bMin bMax e v1 v2 v3 v4 prf).state =
      (getVoxelsStats imageA aMin aMax imageB bMin bMax e v1 v2 v3 v4 prf').state := by
  rw [getVoxelsStats_state, getVoxelsStats_state]

/-- The counters of `getVoxelsStats` on `bigOnes` against `bigHalf` when the
metrics are requested. -/
theorem bigHalf_counts_metrics :
    (getVoxelsStats bigOnes 1 1 bigHalf 1 1 false [] [] [] [] true).state.numBinA =
        1073741824 ∧
      (getVoxelsStats bigOnes 1 1 bigHalf 1 1 false [] [] [] [] true).state.numBnotInA = 0 ∧
      (getVoxelsStats bigOnes 1 1 bigHalf 1 1 false [] [] [] [] true).state.numNotBinA =
        1073741824 := by
  have hA : ∀ p, inShape bigOnes 1 1 p = true := by
    intro p; simp [inShape, bigOnes]
  have h0 : (getVoxelsStats bigOnes 1 1 bigHalf 1 1 false [] [] [] [] true).state.numBnotInA =
      0 := by
    rw [getVoxelsStats_state]
    simp only
    rw [Domain.card_eq_zero _ _ (by intro p _; simp [catBnotInA, hA])]
    exact wrap32_zero
  obtain ⟨_, h2, h3⟩ := bigHalf_counts
  rw [getVoxelsStats_state_prf bigOnes 1 1 bigHalf 1 1 false [] [] [] [] true false]
  rw [getVoxelsStats_state_prf bigOnes 1 1 bigHalf 1 1 false [] [] [] [] true false] at h0
  exact ⟨h2, h0, h3⟩

/-- C19 (as amended): over exact rationals, when the domain has fewer than
`2^31` points and `numBinA > 0`, the F-measure computed by `getVoxelsStats` is
`2*numBinA / (2*numBinA + numBnotInA + numNotBinA)`; and whenever `numBinA = 0`
the F-measure is undefined. -/
theorem getVoxelsStats_fmean (imageA : Image3D) (aMin aMax : Int) (imageB : Image3D)
    (bMin bMax : Int) (e : Bool) (v1 v2 v3 v4 : List Point) :
    (imageA.domain.size < 2 ^ 31 →
      0 < (getVoxelsStats imageA aMin aMax imageB bMin bMax e v1 v2 v3 v4 true).state.numBinA →
      ((getVoxelsStats imageA aMin aMax imageB bMin bMax e v1 v2 v3 v4 true).metrics.map
        Metrics.fmean) =
        some (some
          ((2 * ((getVoxelsStats imageA aMin aMax imageB bMin bMax e v1 v2 v3 v4
              true).state.numBinA : ℚ)) /
            (2 * ((getVoxelsStats imageA aMin aMax imageB bMin bMax e v1 v2 v3 v4
                true).state.numBinA : ℚ) +
              ((getVoxelsStats imageA aMin aMax imageB bMin bMax e v1 v2 v3 v4
                true).state.numBnotInA : ℚ) +
              ((getVoxelsStats imageA aMin aMax imageB bMin bMax e v1 v2 v3 v4
                true).state.numNotBinA : ℚ))))) ∧
    ((getVoxelsStats imageA aMin aMax imageB bMin bMax e v1 v2 v3 v4 true).state.numBinA = 0 →
      ((getVoxelsStats imageA aMin aMax imageB bMin bMax e v1 v2 v3 v4 true).metrics.map
        Metrics.fmean) = some none) := by
  have hm := getVoxelsStats_metrics imageA aMin aMax imageB bMin bMax e v1 v2 v3 v4
  rw [hm]
  simp only [Option.map_some', metricsOf]
  constructor
  · intro hlt
    rw [getVoxelsStats_state]
    simp only [wrap32_card _ _ hlt]
    intro hpos
    have hB := countP_inB_split imageA aMin aMax imageB bMin bMax imageA.domain.points
    have hA := countP_inA_split imageA aMin aMax imageB bMin bMax imageA.domain.points
    have hBle := imageA.domain.card_le_size (inShape imageB bMin bMax)
    have hAle := imageA.domain.card_le_size (inShape imageA aMin aMax)
    simp only [Domain.card_eq_countP] at hBle hAle hpos ⊢
    have h1 : wrap32 (((imageA.domain.points.countP
        (catBinA imageA aMin aMax imageB bMin bMax) : Nat) : Int) +
        ((imageA.domain.points.countP (catBnotInA imageA aMin aMax imageB bMin bMax)
          : Nat) : Int)) =
        ((imageA.domain.points.countP (catBinA imageA aMin aMax imageB bMin bMax) : Nat) : Int) +
        ((imageA.domain.points.countP (catBnotInA imageA aMin aMax imageB bMin bMax)
          : Nat) : Int) := by
      unfold wrap32
      omega
    have h2 : wrap32 (((imageA.domain.points.countP
        (catBinA imageA aMin aMax imageB bMin bMax) : Nat) : Int) +
        ((imageA.domain.points.countP (catNotBinA imageA aMin aMax imageB bMin bMax)
          : Nat) : Int)) =
        ((imageA.domain.points.countP (catBinA imageA aMin aMax imageB bMin bMax) : Nat) : Int) +
        ((imageA.domain.points.countP (catNotBinA imageA aMin aMax imageB bMin bMax)
          : Nat) : Int) := by
      unfold wrap32
      omega
    rw [h1, h2, fMean_ratio _ _ _ hpos (Int.natCast_nonneg _) (Int.natCast_nonneg _)]
  · intro hz
    rw [hz]
    exact congrArg some (fMean_zero_num _ _)

/-- C19 (witness): `twoA` against `twoB`, where `numBinA = 1`, `numBnotInA = 1`
and the F-measure is 2/3; and `twoA` against `twoC`, whose shapes are both
non-empty and disjoint, where `numBinA = 0` and the F-measure is undefined. -/
theorem getVoxelsStats_fmean_witness :
    ((getVoxelsStats twoA 0 128 twoB 0 128 true [] [] [] [] true).metrics.map Metrics.fmean) =
        some (some
          ((2 * ((getVoxelsStats twoA 0 128 twoB 0 128 true [] [] [] [] true).state.numBinA
              : ℚ)) /
            (2 * ((getVoxelsStats twoA 0 128 twoB 0 128 true [] [] [] [] true).state.numBinA
                : ℚ) +
              ((getVoxelsStats twoA 0 128 twoB 0 128 true [] [] [] [] true).state.numBnotInA
                : ℚ) +
              ((getVoxelsStats twoA 0 128 twoB 0 128 true [] [] [] [] true).state.numNotBinA
                : ℚ)))) ∧
      (getVoxelsStats twoA 0 128 twoB 0 128 true [] [] [] [] true).state.numBinA = 1 ∧
      (getVoxelsStats twoA 0 128 twoC 0 128 true [] [] [] [] true).state.numTotalInA = 1 ∧
      (getVoxelsStats twoA 0 128 twoC 0 128 true [] [] [] [] true).state.numTotalInB = 1 ∧
      ((getVoxelsStats twoA 0 128 twoC 0 128 true [] [] [] [] true).metrics.map Metrics.fmean) =
        some none :=
  ⟨(getVoxelsStats_fmean twoA 0 128 twoB 0 128 true [] [] [] []).1 (by decide) (by decide),
    by decide, by decide, by decide,
    (getVoxelsStats_fmean twoA 0 128 twoC 0 128 true [] [] [] []).2 (by decide)⟩

/-- C19 (counterexample): on a domain of `2^31` voxels, all of them in A and
half of them in B, `numBinA = 2^30 > 0`, `numBnotInA = 0` and
`numNotBinA = 2^30`; the `int` sum `numBinA + numNotBinA` is `-2^31`, so recall is
`-1/2` and the F-measure is `-2`, not `2*numBinA / (2*numBinA + numBnotInA +
numNotBinA) = 2/3`. -/
theorem getVoxelsStats_fmean_overflow_bigHalf :
    (getVoxelsStats bigOnes 1 1 bigHalf 1 1 false [] [] [] [] true).state.numBinA =
        1073741824 ∧
      (getVoxelsStats bigOnes 1 1 bigHalf 1 1 false [] [] [] [] true).state.numBnotInA = 0 ∧
      (getVoxelsStats bigOnes 1 1 bigHalf 1 1 false [] [] [] [] true).state.numNotBinA =
        1073741824 ∧
      ((getVoxelsStats bigOnes 1 1 bigHalf 1 1 false [] [] [] [] true).metrics.map
        Metrics.fmean) = some (some (-2)) ∧
      ((getVoxelsStats bigOnes 1 1 bigHalf 1 1 false [] [] [] [] true).metrics.map
        Metrics.fmean) ≠
        some (some ((2 * (1073741824 : ℚ)) / (2 * (1073741824 : ℚ) + 0 + 1073741824))) := by
  obtain ⟨h1, h2, h3⟩ := bigHalf_counts_metrics
  have hm := getVoxelsStats_metrics bigOnes 1 1 bigHalf 1 1 false [] [] [] []
  have hf : ((getVoxelsStats bigOnes 1 1 bigHalf 1 1 false [] [] [] [] true).metrics.map
      Metrics.fmean) = some (some (-2)) := by
    rw [hm]
    simp only [Option.map_some', metricsOf, h1, h2, h3]
    have hw1 : wrap32 (1073741824 + 0) = 1073741824 := by unfold wrap32; norm_num
    have hw2 : wrap32 (1073741824 + 1073741824) = -2147483648 := by unfold wrap32; norm_num
    rw [hw1, hw2]
    simp only [ratio, fMean]
    norm_num
  refine ⟨h1, h2, h3, hf, ?_⟩
  rw [hf]
  norm_num

/-! ## Selection in terms of the two shapes -/

end VolShapeMetrics
